import Mathlib

/-!
Verification of the PowerDeck CPU-management layer
(`py_modules/cpu_manager.py` and the governor path of `main.py`).

The Python code is embedded shallowly: sysfs is an explicit state, every
manager method becomes a pure function returning its boolean result, the
updated state and the list of sysfs write (and, where relevant, read)
events it performed, in order.  Branches mirror the source line by line;
environment facts the code merely observes (which files exist, which
writes the kernel rejects, the cached topology) are fields of an
environment record.
-/

namespace PowerDeck

/-! ### Core-parking path: online/offline of CPUs and physical cores
    (`cpu_manager.py`, lines 701-940). -/

/-- A sysfs event on the core-parking path: a write of `val` to
`cpu{cpu}/online`, or a C-state preparation pass for `cpu`
(`force_cpu_to_cstate`, which touches only cpuidle/frequency files). -/
inductive CoreEv where
  | wr (cpu : Nat) (val : Bool)
  | prep (cpu : Nat)
deriving DecidableEq, Repr

/-- CPU id an event touches. -/
def CoreEv.cpu : CoreEv → Nat
  | .wr c _ => c
  | .prep c => c

/-- Does an event touch CPU 0? -/
def touchesCpu0 (e : CoreEv) : Bool := e.cpu == 0

/-- Environment for the core-parking path: the cached topology of the
`CPUManager` instance and the fixed facts of the sysfs tree.
`primaryCpusCache` models `_primary_cpus_cache`, `siblingsMap` models
`_cpu_siblings_map` (`none` = key absent), `smtActive` the content of
`smt/active`, `hasOnlineFile cpu` whether `cpu{cpu}/online` exists, and
`writeFails cpu` whether a write to that file raises. -/
structure CoreEnv where
  primaryCpusCache : Option (List Nat)
  siblingsMap : Nat → Option (List Nat)
  smtActive : Bool
  hasOnlineFile : Nat → Bool
  hasCstate : Nat → Bool
  writeFails : Nat → Bool

/-- Mutable sysfs state of the core-parking path: the content of each
`cpu{cpu}/online` file. -/
structure CoreState where
  online : Nat → Bool

/-- Write the online flag of one CPU. -/
def CoreState.setOnline (s : CoreState) (cpu : Nat) (v : Bool) : CoreState :=
  ⟨fun c => if c = cpu then v else s.online c⟩

/-- `get_primary_cpus_by_physical_core`: the cached list, or `[0]` when the
cache is `None` or empty (Python truthiness of the list). -/
def get_primary_cpus_by_physical_core (env : CoreEnv) : List Nat :=
  match env.primaryCpusCache with
  | none => [0]
  | some l => if l.isEmpty then [0] else l

/-- `get_cpu_siblings`: `_cpu_siblings_map.get(cpu_id, [cpu_id])`. -/
def get_cpu_siblings (env : CoreEnv) (cpu : Nat) : List Nat :=
  (env.siblingsMap cpu).getD [cpu]

/-- `online_cpu` (lines 746-775): CPU 0 is reported always online; a CPU
without an online file cannot be controlled; an already-online CPU is left
untouched; otherwise `"1"` is written. -/
def online_cpu (env : CoreEnv) (s : CoreState) (cpu : Nat) :
    Bool × CoreState × List CoreEv :=
  if cpu = 0 then (true, s, [])
  else if !env.hasOnlineFile cpu then (false, s, [])
  else if s.online cpu then (true, s, [])
  else if env.writeFails cpu then (false, s, [.wr cpu true])
  else (true, s.setOnline cpu true, [.wr cpu true])

/-- `offline_cpu_with_cstate_prep` (lines 701-744): CPU 0 is refused
outright; a CPU without an online file cannot be controlled; an
already-offline CPU is left untouched with no C-state preparation;
otherwise the CPU is coaxed into a deep C-state (when one is available)
and `"0"` is written. -/
def offline_cpu_with_cstate_prep (env : CoreEnv) (s : CoreState) (cpu : Nat) :
    Bool × CoreState × List CoreEv :=
  if cpu = 0 then (false, s, [])
  else if !env.hasOnlineFile cpu then (false, s, [])
  else if !s.online cpu then (true, s, [])
  else
    let prepTr : List CoreEv := if env.hasCstate cpu then [.prep cpu] else []
    if env.writeFails cpu then (false, s, prepTr ++ [.wr cpu false])
    else (true, s.setOnline cpu false, prepTr ++ [.wr cpu false])

/-- Sibling loop of `online_physical_core`: brings every sibling online,
skipping CPU 0, and conjoins the per-CPU results. -/
def onlineSiblingsLoop (env : CoreEnv) : CoreState → List Nat →
    Bool × CoreState × List CoreEv
  | s, [] => (true, s, [])
  | s, c :: rest =>
    if c = 0 then onlineSiblingsLoop env s rest
    else
      let t := online_cpu env s c
      let r := onlineSiblingsLoop env t.2.1 rest
      (t.1 && r.1, r.2.1, t.2.2 ++ r.2.2)

/-- `online_physical_core` (lines 836-856). -/
def online_physical_core (env : CoreEnv) (s : CoreState) (primary : Nat) :
    Bool × CoreState × List CoreEv :=
  onlineSiblingsLoop env s (get_cpu_siblings env primary)

/-- Sibling loop of `offline_physical_core`: offlines every sibling,
skipping CPU 0, and conjoins the per-CPU results. -/
def offlineSiblingsLoop (env : CoreEnv) : CoreState → List Nat →
    Bool × CoreState × List CoreEv
  | s, [] => (true, s, [])
  | s, c :: rest =>
    if c = 0 then offlineSiblingsLoop env s rest
    else
      let t := offline_cpu_with_cstate_prep env s c
      let r := offlineSiblingsLoop env t.2.1 rest
      (t.1 && r.1, r.2.1, t.2.2 ++ r.2.2)

/-- `offline_physical_core` (lines 858-876). -/
def offline_physical_core (env : CoreEnv) (s : CoreState) (primary : Nat) :
    Bool × CoreState × List CoreEv :=
  offlineSiblingsLoop env s (get_cpu_siblings env primary)

/-- The online phase of `set_cpu_cores_with_cstate_optimization`: for each
kept primary, online the whole physical core when SMT is active, else just
the primary (CPU 0 is skipped). -/
def onlinePrimaryLoop (env : CoreEnv) : CoreState → List Nat →
    Bool × CoreState × List CoreEv
  | s, [] => (true, s, [])
  | s, p :: rest =>
    let t :=
      if env.smtActive then online_physical_core env s p
      else if p ≠ 0 then online_cpu env s p
      else (true, s, [])
    let r := onlinePrimaryLoop env t.2.1 rest
    (t.1 && r.1, r.2.1, t.2.2 ++ r.2.2)

/-- The offline phase of `set_cpu_cores_with_cstate_optimization`: a
primary equal to 0 is skipped entirely; otherwise the whole physical core
(SMT) or just the primary is offlined. -/
def offlinePrimaryLoop (env : CoreEnv) : CoreState → List Nat →
    Bool × CoreState × List CoreEv
  | s, [] => (true, s, [])
  | s, p :: rest =>
    let t :=
      if p = 0 then (true, s, [])
      else if env.smtActive then offline_physical_core env s p
      else offline_cpu_with_cstate_prep env s p
    let r := offlinePrimaryLoop env t.2.1 rest
    (t.1 && r.1, r.2.1, t.2.2 ++ r.2.2)

/-- The clamp at the head of `set_cpu_cores_with_cstate_optimization`:
first raise to 1, then cap at the physical-core count. -/
def clampTargetCores (target : Int) (maxPhysicalCores : Nat) : Int :=
  let t := if target < 1 then 1 else target
  if t > (maxPhysicalCores : Int) then (maxPhysicalCores : Int) else t

/-- `set_cpu_cores_with_cstate_optimization` (lines 878-940): clamp the
request, online the first `target` primaries, offline the rest. -/
def set_cpu_cores_with_cstate_optimization (env : CoreEnv) (s : CoreState)
    (target : Int) : Bool × CoreState × List CoreEv :=
  let primaryCpus := get_primary_cpus_by_physical_core env
  let tn := (clampTargetCores target primaryCpus.length).toNat
  let a := onlinePrimaryLoop env s (primaryCpus.take tn)
  let b := offlinePrimaryLoop env a.2.1 (primaryCpus.drop tn)
  (a.1 && b.1, b.2.1, a.2.2 ++ b.2.2)

/-- The logical CPUs the online phase writes to: siblings of the kept
primaries when SMT is active, the primaries themselves otherwise. -/
def primaryOnlineTargets (env : CoreEnv) (l : List Nat) : List Nat :=
  l.flatMap (fun p => if env.smtActive then get_cpu_siblings env p else [p])

/-- The logical CPUs the offline phase writes to: none for a primary equal
to 0, else its siblings (SMT) or itself. -/
def primaryOfflineTargets (env : CoreEnv) (l : List Nat) : List Nat :=
  l.flatMap (fun p =>
    if p = 0 then []
    else if env.smtActive then get_cpu_siblings env p else [p])

/-- The clamped physical-core target actually used by
`set_cpu_cores_with_cstate_optimization`. -/
def clampedTarget (env : CoreEnv) (target : Int) : Nat :=
  (clampTargetCores target (get_primary_cpus_by_physical_core env).length).toNat

/-- The primaries kept online: the first `clampedTarget` entries of the
(ascending) primary list. -/
def keptPrimaries (env : CoreEnv) (target : Int) : List Nat :=
  (get_primary_cpus_by_physical_core env).take (clampedTarget env target)

/-- The primaries parked: the entries past `clampedTarget`. -/
def parkedPrimaries (env : CoreEnv) (target : Int) : List Nat :=
  (get_primary_cpus_by_physical_core env).drop (clampedTarget env target)

/-- All logical CPUs the online phase of a `set_cpu_cores` call targets. -/
def coreOnTargets (env : CoreEnv) (target : Int) : List Nat :=
  primaryOnlineTargets env (keptPrimaries env target)

/-- All logical CPUs the offline phase of a `set_cpu_cores` call targets. -/
def coreOffTargets (env : CoreEnv) (target : Int) : List Nat :=
  primaryOfflineTargets env (parkedPrimaries env target)

/-! ### Concrete core-parking environment: Scenario A
    (8 possible CPUs, SMT on, sibling pairs (0,4)(1,5)(2,6)(3,7)). -/

/-- Scenario A environment: primaries `[0,1,2,3]`, SMT active, every
nonzero CPU hot-pluggable, no write failures. -/
def envA : CoreEnv where
  primaryCpusCache := some [0, 1, 2, 3]
  siblingsMap := fun c =>
    match c with
    | 0 => some [0, 4]
    | 4 => some [0, 4]
    | 1 => some [1, 5]
    | 5 => some [1, 5]
    | 2 => some [2, 6]
    | 6 => some [2, 6]
    | 3 => some [3, 7]
    | 7 => some [3, 7]
    | _ => none
  smtActive := true
  hasOnlineFile := fun c => !(c == 0)
  hasCstate := fun _ => true
  writeFails := fun _ => false

/-- Scenario A initial sysfs state: CPUs 0-7 online. -/
def sAllOnline8 : CoreState := ⟨fun c => decide (c < 8)⟩

/-! ### Frequency-limit path: `set_cpu_frequency_limits`
    (`cpu_manager.py`, lines 992-1014 and 1054-1164). -/

/-- A sysfs event on the frequency path: the read of
`cpuinfo_min_freq`/`cpuinfo_max_freq` by `get_cpu_frequency_range`, the
read of one CPU's current scaling limits, or a write (in kHz) to one
CPU's `scaling_min_freq` or `scaling_max_freq`. -/
inductive FreqEv where
  | cpuinfoRead
  | rdLimits (cpu : Nat)
  | wrMin (cpu : Nat) (val : Nat)
  | wrMax (cpu : Nat) (val : Nat)
deriving DecidableEq, Repr

/-- Environment for the frequency path: the cached online-CPU list of the
manager, whether the `cpuinfo_*` files of cpu0 exist and their values,
whether each CPU's scaling files exist, and which writes the driver
rejects. -/
structure FreqEnv where
  onlineCpus : List Nat
  cpuinfoExists : Bool
  cpuinfoMin : Nat
  cpuinfoMax : Nat
  freqFilesExist : Nat → Bool
  minWriteFails : Nat → Bool
  maxWriteFails : Nat → Bool

/-- Mutable sysfs state of the frequency path: each CPU's configured
scaling limits in kHz. -/
structure FreqState where
  scalingMin : Nat → Nat
  scalingMax : Nat → Nat

/-- Write one CPU's `scaling_min_freq`. -/
def FreqState.setMin (s : FreqState) (cpu v : Nat) : FreqState :=
  { s with scalingMin := fun c => if c = cpu then v else s.scalingMin c }

/-- Write one CPU's `scaling_max_freq`. -/
def FreqState.setMax (s : FreqState) (cpu v : Nat) : FreqState :=
  { s with scalingMax := fun c => if c = cpu then v else s.scalingMax c }

/-- `get_cpu_frequency_range` (lines 992-1014): reads cpu0's
`cpuinfo_min_freq`/`cpuinfo_max_freq` when both exist, else `None`.
Returns the range together with the read trace. -/
def get_cpu_frequency_range (env : FreqEnv) :
    Option (Nat × Nat) × List FreqEv :=
  if env.cpuinfoExists then
    (some (env.cpuinfoMin, env.cpuinfoMax), [.cpuinfoRead])
  else (none, [])

/-- The validation test of `set_cpu_frequency_limits` for a single
requested limit: requested value below `cpuinfo_min_freq` or above
`cpuinfo_max_freq`. -/
def outOfRange (lo hi : Nat) : Option Nat → Bool
  | none => false
  | some m => decide (m < lo) || decide (m > hi)

/-- The validation test for min greater than max when both are given. -/
def minOverMax : Option Nat → Option Nat → Bool
  | some a, some b => decide (a > b)
  | _, _ => false

/-- The per-CPU body of the write loop of `set_cpu_frequency_limits`
(lines 1104-1146): read the current limits; if a max is requested and
lowering it below the currently configured min, first lower min to the
new max (a failure here only warns); then write the max; then, when a min
is requested and the max phase did not fail, write the min. -/
def applyFreqLimitsCpu (env : FreqEnv) (s : FreqState) (cpu : Nat)
    (minO maxO : Option Nat) : Bool × FreqState × List FreqEv :=
  let curMin := s.scalingMin cpu
  let curMax := s.scalingMax cpu
  let stepMax : Bool × FreqState × List FreqEv :=
    match maxO with
    | none => (true, s, [])
    | some m =>
      let tmp : FreqState × List FreqEv :=
        if m < curMax ∧ curMin > m then
          if env.minWriteFails cpu then (s, [.wrMin cpu m])
          else (s.setMin cpu m, [.wrMin cpu m])
        else (s, [])
      if env.maxWriteFails cpu then
        (false, tmp.1, tmp.2 ++ [.wrMax cpu m])
      else (true, (tmp.1).setMax cpu m, tmp.2 ++ [.wrMax cpu m])
  let stepMin : Bool × FreqState × List FreqEv :=
    match minO with
    | none => (stepMax.1, stepMax.2.1, [])
    | some m =>
      if stepMax.1 then
        if env.minWriteFails cpu then
          (false, stepMax.2.1, [.wrMin cpu m])
        else (true, (stepMax.2.1).setMin cpu m, [.wrMin cpu m])
      else (false, stepMax.2.1, [])
  (stepMin.1, stepMin.2.1, .rdLimits cpu :: (stepMax.2.2 ++ stepMin.2.2))

/-- The write loop of `set_cpu_frequency_limits` over the online CPUs:
CPUs without scaling files are skipped; the others are processed by
`applyFreqLimitsCpu`. Returns (success count, attempt count, state,
trace). -/
def freqLimitsLoop (env : FreqEnv) (minO maxO : Option Nat) :
    FreqState → List Nat → Nat × Nat × FreqState × List FreqEv
  | s, [] => (0, 0, s, [])
  | s, cpu :: rest =>
    if env.freqFilesExist cpu then
      let t := applyFreqLimitsCpu env s cpu minO maxO
      let r := freqLimitsLoop env minO maxO t.2.1 rest
      ((if t.1 then 1 else 0) + r.1, 1 + r.2.1, r.2.2.1,
        t.2.2 ++ r.2.2.2)
    else freqLimitsLoop env minO maxO s rest

/-- `set_cpu_frequency_limits` (lines 1054-1164): reject immediately when
neither limit is given; fetch the hardware range (reject when
unavailable); validate each given limit against the range and min against
max, all before any write; then run the write loop and succeed only when
every attempted CPU succeeded and at least one was attempted. -/
def set_cpu_frequency_limits (env : FreqEnv) (s : FreqState)
    (minO maxO : Option Nat) : Bool × FreqState × List FreqEv :=
  if minO.isNone ∧ maxO.isNone then (false, s, [])
  else
    let fr := get_cpu_frequency_range env
    match fr.1 with
    | none => (false, s, fr.2)
    | some (lo, hi) =>
      if outOfRange lo hi minO then (false, s, fr.2)
      else if outOfRange lo hi maxO then (false, s, fr.2)
      else if minOverMax minO maxO then (false, s, fr.2)
      else
        let r := freqLimitsLoop env minO maxO s env.onlineCpus
        ((r.1 == r.2.1) && decide (0 < r.2.1), r.2.2.1, fr.2 ++ r.2.2.2)

/-- A concrete frequency environment for witnesses: one online CPU,
hardware range 400000-3500000 kHz, all files present, no write
failures. -/
def freqEnvW : FreqEnv where
  onlineCpus := [0]
  cpuinfoExists := true
  cpuinfoMin := 400000
  cpuinfoMax := 3500000
  freqFilesExist := fun _ => true
  minWriteFails := fun _ => false
  maxWriteFails := fun _ => false

/-- A concrete frequency state: every CPU configured to 800000-2800000
kHz. -/
def freqStateW : FreqState where
  scalingMin := fun _ => 800000
  scalingMax := fun _ => 2800000

/-! ### CPU boost path: `set_cpu_boost`
    (`cpu_manager.py`, lines 403-481). -/

/-- A sysfs event on the boost path: a write to Intel's `no_turbo` file,
to AMD's global `cpufreq/boost` file, to one CPU's per-policy `boost`
file, or a frequency-path event from the follow-up limit enforcement. -/
inductive BoostEv where
  | intelW (val : Bool)
  | amdW (val : Bool)
  | policyW (cpu : Nat) (val : Bool)
  | freqEv (e : FreqEv)
deriving DecidableEq, Repr

/-- Environment for the boost path: which boost switches exist, which
writes fail, and the frequency-path environment (which also carries the
manager's online-CPU list used by the per-policy loop). -/
structure BoostEnv where
  intelNoTurboExists : Bool
  amdGlobalExists : Bool
  amdGlobalWriteFails : Bool
  perPolicyExists : Nat → Bool
  perPolicyWriteFails : Nat → Bool
  freq : FreqEnv

/-- Mutable sysfs state of the boost path: the three kinds of boost flags
plus the frequency scaling limits. `intelNoTurbo` holds the content of
`no_turbo` (inverted logic: `true` means turbo off). -/
structure BoostState where
  intelNoTurbo : Bool
  amdGlobalBoost : Bool
  perPolicyBoost : Nat → Bool
  freq : FreqState

/-- Write one CPU's per-policy boost flag. -/
def BoostState.setPolicy (s : BoostState) (cpu : Nat) (v : Bool) :
    BoostState :=
  { s with perPolicyBoost :=
      fun c => if c = cpu then v else s.perPolicyBoost c }

/-- The per-policy fallback loop of `set_cpu_boost` (lines 428-447):
write every online CPU's per-policy boost file where it exists, counting
successes and attempts. Returns (success count, attempt count, state,
trace). -/
def perPolicyBoostLoop (env : BoostEnv) (enabled : Bool) :
    BoostState → List Nat → Nat × Nat × BoostState × List BoostEv
  | s, [] => (0, 0, s, [])
  | s, cpu :: rest =>
    if env.perPolicyExists cpu then
      let step : Nat × BoostState :=
        if env.perPolicyWriteFails cpu then (0, s)
        else (1, s.setPolicy cpu enabled)
      let r := perPolicyBoostLoop env enabled step.2 rest
      (step.1 + r.1, 1 + r.2.1, r.2.2.1,
        BoostEv.policyW cpu enabled :: r.2.2.2)
    else perPolicyBoostLoop env enabled s rest

/-- The frequency-limit enforcement at the end of `set_cpu_boost`
(lines 449-473), run only when the boost change succeeded: re-read the
hardware range and re-apply limits.  With boost enabled the full range is
applied; with boost disabled the max is set to `base_freq`, which the
source assigns from `freq_range['max_freq_khz']`. -/
def applyBoostFreqLimits (env : BoostEnv) (s : BoostState)
    (enabled : Bool) : BoostState × List BoostEv :=
  let fr := get_cpu_frequency_range env.freq
  match fr.1 with
  | none => (s, fr.2.map BoostEv.freqEv)
  | some (lo, hi) =>
    if enabled then
      let r := set_cpu_frequency_limits env.freq s.freq (some lo) (some hi)
      ({ s with freq := r.2.1 },
        fr.2.map BoostEv.freqEv ++ (r.2.2).map BoostEv.freqEv)
    else
      let baseFreq := hi
      let r := set_cpu_frequency_limits env.freq s.freq (some lo)
        (some baseFreq)
      ({ s with freq := r.2.1 },
        fr.2.map BoostEv.freqEv ++ (r.2.2).map BoostEv.freqEv)

/-- `set_cpu_boost` (lines 403-481): Intel's `no_turbo` when present,
then AMD's global boost file (a failure there only warns), then the
per-policy fallback requiring every attempted write to succeed (a partial
failure returns `false` immediately); on success the frequency limits are
re-applied for the new boost state. -/
def set_cpu_boost (env : BoostEnv) (s : BoostState) (enabled : Bool) :
    Bool × BoostState × List BoostEv :=
  let intelStep : Bool × BoostState × List BoostEv :=
    if env.intelNoTurboExists then
      (true, { s with intelNoTurbo := !enabled }, [.intelW (!enabled)])
    else (false, s, [])
  let amdStep : Bool × BoostState × List BoostEv :=
    if env.amdGlobalExists then
      if env.amdGlobalWriteFails then
        (intelStep.1, intelStep.2.1, [.amdW enabled])
      else (true, { intelStep.2.1 with amdGlobalBoost := enabled },
        [.amdW enabled])
    else (intelStep.1, intelStep.2.1, [])
  let tr0 := intelStep.2.2 ++ amdStep.2.2
  if amdStep.1 then
    let f := applyBoostFreqLimits env amdStep.2.1 enabled
    (true, f.1, tr0 ++ f.2)
  else
    let pp := perPolicyBoostLoop env enabled amdStep.2.1
      env.freq.onlineCpus
    if 0 < pp.2.1 ∧ pp.1 = pp.2.1 then
      let f := applyBoostFreqLimits env pp.2.2.1 enabled
      (true, f.1, (tr0 ++ pp.2.2.2) ++ f.2)
    else if 0 < pp.2.1 then
      (false, pp.2.2.1, tr0 ++ pp.2.2.2)
    else (false, pp.2.2.1, tr0 ++ pp.2.2.2)

/-- Scenario C environment: no global boost switch, four online CPUs with
per-policy boost files, CPU 2's write failing; frequency files all
present with hardware range 400000-3500000 kHz. -/
def boostEnvC : BoostEnv where
  intelNoTurboExists := false
  amdGlobalExists := false
  amdGlobalWriteFails := false
  perPolicyExists := fun _ => true
  perPolicyWriteFails := fun c => c == 2
  freq :=
    { onlineCpus := [0, 1, 2, 3]
      cpuinfoExists := true
      cpuinfoMin := 400000
      cpuinfoMax := 3500000
      freqFilesExist := fun _ => true
      minWriteFails := fun _ => false
      maxWriteFails := fun _ => false }

/-- Environment for the C8 boost/frequency interaction: a working AMD
global boost switch, one online CPU, hardware range 400000-3500000 kHz. -/
def boostEnvG : BoostEnv where
  intelNoTurboExists := false
  amdGlobalExists := true
  amdGlobalWriteFails := false
  perPolicyExists := fun _ => true
  perPolicyWriteFails := fun _ => false
  freq :=
    { onlineCpus := [0]
      cpuinfoExists := true
      cpuinfoMin := 400000
      cpuinfoMax := 3500000
      freqFilesExist := fun _ => true
      minWriteFails := fun _ => false
      maxWriteFails := fun _ => false }

/-- A boost-path start state: boost on everywhere, scaling limits
currently configured to 400000-2000000 kHz (below the hardware max). -/
def boostStateW : BoostState where
  intelNoTurbo := false
  amdGlobalBoost := true
  perPolicyBoost := fun _ => true
  freq :=
    { scalingMin := fun _ => 400000
      scalingMax := fun _ => 2000000 }

/-! ### EPP path: `set_epp` (`cpu_manager.py`, lines 296-361), and the
    governor-setting path of `main.py` (`set_power_governor`,
    lines 1972-2024). -/

/-- The scaling drivers recognised by `power_core.ScalingDriver`. -/
inductive ScalingDriver where
  | intelPstate
  | intelCpufreq
  | amdPstateEpp
  | amdPstate
  | acpiCpufreq
deriving DecidableEq, Repr

/-- The string "performance". -/
def sPerformance : String := "performance"

/-- The string "powersave". -/
def sPowersave : String := "powersave"

/-- The string "balanced". -/
def sBalanced : String := "balanced"

/-- The string "ondemand". -/
def sOndemand : String := "ondemand"

/-- The string "conservative". -/
def sConservative : String := "conservative"

/-- The string "schedutil". -/
def sSchedutil : String := "schedutil"

/-- The string "default". -/
def sDefault : String := "default"

/-- The string "power". -/
def sPower : String := "power"

/-- The string "balance_power". -/
def sBalancePower : String := "balance_power"

/-- The runtime attributes of a `CPUManager` instance that `set_epp`
depends on. Python attributes may be absent: `scalingDriverAttr = none`
models an instance on which `_scaling_driver` was never assigned, in
which case reading it raises `AttributeError`; `some d` models an
instance carrying the (optional) detected driver `d`. -/
structure CpuManagerAttrs where
  scalingDriverAttr : Option (Option ScalingDriver)

/-- The attribute state produced by `CPUManager.__init__` (lines 33-41):
the constructor sets `_possible_cpus`, the topology caches and
`_online_cpus`, but never assigns `_scaling_driver` (and never calls
`_detect_scaling_driver`), so the attribute is absent. -/
def cpuManagerInitAttrs : CpuManagerAttrs := ⟨none⟩

/-- A Python exception escaping a modelled function. -/
inductive PyError where
  | attributeError
deriving DecidableEq, Repr

/-- Environment for the EPP path: whether and what
`energy_performance_available_preferences` holds, the current governor as
read by `get_current_governor`, the online CPUs, and each CPU's
`energy_performance_preference` file status. -/
structure EppEnv where
  eppAvailFileExists : Bool
  eppAvailRaw : List String
  currentGovernor : Option String
  onlineCpus : List Nat
  eppFileExists : Nat → Bool
  eppWriteFails : Nat → Bool

/-- Mutable sysfs state of the EPP path: each CPU's configured EPP. -/
structure EppState where
  epp : Nat → String

/-- `get_available_epp_options` (lines 297-311): split the file, drop one
occurrence of "default" when present, reverse for UI ordering; an absent
file (or read failure) yields the empty list. -/
def get_available_epp_options (env : EppEnv) : List String :=
  if env.eppAvailFileExists then
    let options := env.eppAvailRaw
    let options := if sDefault ∈ options then options.erase sDefault
      else options
    options.reverse
  else []

/-- The per-CPU write loop of `set_epp` (lines 340-354): write each
online CPU's EPP file where it exists, counting successes (busy or other
failures are logged and skipped). Returns (success count, state, write
trace of (cpu, value)). -/
def eppWriteLoop (env : EppEnv) (epp : String) :
    EppState → List Nat → Nat × EppState × List (Nat × String)
  | s, [] => (0, s, [])
  | s, cpu :: rest =>
    if env.eppFileExists cpu then
      let step : Nat × EppState :=
        if env.eppWriteFails cpu then (0, s)
        else (1, ⟨fun c => if c = cpu then epp else s.epp c⟩)
      let r := eppWriteLoop env epp step.2 rest
      (step.1 + r.1, r.2.1, (cpu, epp) :: r.2.2)
    else eppWriteLoop env epp s rest

/-- `set_epp` (lines 325-361): reject when the value is not in the live
available-EPP list; then, if the current governor is "performance",
consult `self._scaling_driver` — an attribute access that raises
`AttributeError` when the attribute was never assigned — and reject when
the driver is amd-pstate-epp or intel_pstate; otherwise write all online
CPUs and succeed when at least one write succeeded. -/
def set_epp (attrs : CpuManagerAttrs) (env : EppEnv) (s : EppState)
    (epp : String) :
    Except PyError (Bool × EppState × List (Nat × String)) :=
  let available := get_available_epp_options env
  if epp ∈ available then
    if env.currentGovernor = some sPerformance then
      match attrs.scalingDriverAttr with
      | none => .error .attributeError
      | some drv =>
        if drv = some ScalingDriver.amdPstateEpp ∨
            drv = some ScalingDriver.intelPstate then
          .ok (false, s, [])
        else
          let r := eppWriteLoop env epp s env.onlineCpus
          .ok (decide (0 < r.1), r.2.1, r.2.2)
    else
      let r := eppWriteLoop env epp s env.onlineCpus
      .ok (decide (0 < r.1), r.2.1, r.2.2)
  else .ok (false, s, [])

/-- A concrete EPP environment: amd-pstate-epp style option file,
governor currently "performance", two online CPUs with EPP files. -/
def eppEnvW : EppEnv where
  eppAvailFileExists := true
  eppAvailRaw := [sDefault, sPerformance, sBalancePower, sPower]
  currentGovernor := some sPerformance
  onlineCpus := [0, 1]
  eppFileExists := fun _ => true
  eppWriteFails := fun _ => false

/-- A concrete EPP state: everything at "performance". -/
def eppStateW : EppState := ⟨fun _ => sPerformance⟩

/-- Environment for `main.py`'s `set_power_governor`: the
`scaling_available_governors` file of cpu0, the online CPUs, and each
CPU's `scaling_governor` file status. -/
structure GovEnv where
  availFileExists : Bool
  availableGovernors : List String
  onlineCpus : List Nat
  govFileExists : Nat → Bool
  govWriteFails : Nat → Bool

/-- Mutable sysfs state of the governor path: each CPU's governor. -/
structure GovState where
  governor : Nat → String

/-- The available-governor list `set_power_governor` works with: the file
content when present, else the safe fallback
`["performance", "powersave"]`. -/
def mainAvailableGovernors (env : GovEnv) : List String :=
  if env.availFileExists then env.availableGovernors
  else [sPerformance, sPowersave]

/-- The `governor_mapping` dict of `set_power_governor`: the four
unsupported choices all map to "powersave". -/
def governorMapping (g : String) : Option String :=
  if g = sBalanced then some sPowersave
  else if g = sOndemand then some sPowersave
  else if g = sConservative then some sPowersave
  else if g = sSchedutil then some sPowersave
  else none

/-- The governor actually applied: the request when available, else the
mapped fallback, else "powersave". -/
def mainGovernorTarget (env : GovEnv) (g : String) : String :=
  if g ∈ mainAvailableGovernors env then g
  else
    match governorMapping g with
    | some t => t
    | none => sPowersave

/-- The per-CPU write loop of `set_power_governor`: write each online
CPU's `scaling_governor` where the file exists; a failure flips the
aggregate flag but the loop continues. -/
def govWriteLoop (env : GovEnv) (target : String) :
    GovState → List Nat → Bool × GovState × List (Nat × String)
  | s, [] => (true, s, [])
  | s, cpu :: rest =>
    if env.govFileExists cpu then
      let step : Bool × GovState :=
        if env.govWriteFails cpu then (false, s)
        else (true, ⟨fun c => if c = cpu then target else s.governor c⟩)
      let r := govWriteLoop env target step.2 rest
      (step.1 && r.1, r.2.1, (cpu, target) :: r.2.2)
    else govWriteLoop env target s rest

/-- `set_power_governor` (`main.py`, lines 1972-2024): resolve the target
governor with the fallback mapping, write it to every online CPU, return
`true` when every attempted write succeeded. -/
def set_power_governor (env : GovEnv) (s : GovState) (governor : String) :
    Bool × GovState × List (Nat × String) :=
  let target := mainGovernorTarget env governor
  govWriteLoop env target s env.onlineCpus

/-- Scenario D environment: a driver exposing only
["performance", "powersave"], four online CPUs, no write failures. -/
def govEnvD : GovEnv where
  availFileExists := true
  availableGovernors := [sPerformance, sPowersave]
  onlineCpus := [0, 1, 2, 3]
  govFileExists := fun _ => true
  govWriteFails := fun _ => false

/-- Scenario D initial state: every CPU on "performance". -/
def govStateD : GovState := ⟨fun _ => sPerformance⟩

/-! ### Lemmas about the core-parking loops -/

theorem online_cpu_online_iff (env : CoreEnv) (s : CoreState) (cpu c : Nat) :
    (online_cpu env s cpu).2.1.online c = true ↔
      (s.online c = true ∨
        (c = cpu ∧ cpu ≠ 0 ∧ env.hasOnlineFile cpu = true ∧
          env.writeFails cpu = false)) := by
  unfold online_cpu
  split_ifs with h0 h1 h2 h3 <;>
    simp_all [CoreState.setOnline] <;>
    by_cases hc : c = cpu <;> simp_all

theorem offline_cpu_online_iff (env : CoreEnv) (s : CoreState) (cpu c : Nat) :
    (offline_cpu_with_cstate_prep env s cpu).2.1.online c = true ↔
      (s.online c = true ∧
        ¬(c = cpu ∧ cpu ≠ 0 ∧ env.hasOnlineFile cpu = true ∧
          env.writeFails cpu = false)) := by
  unfold offline_cpu_with_cstate_prep
  split_ifs with h0 h1 h2 h3 <;>
    simp_all [CoreState.setOnline] <;>
    by_cases hc : c = cpu <;> simp_all

theorem onlineSiblingsLoop_online_iff (env : CoreEnv) (l : List Nat) :
    ∀ (s : CoreState) (c : Nat),
      (onlineSiblingsLoop env s l).2.1.online c = true ↔
        (s.online c = true ∨
          (c ∈ l ∧ c ≠ 0 ∧ env.hasOnlineFile c = true ∧
            env.writeFails c = false)) := by
  induction l with
  | nil => intro s c; simp [onlineSiblingsLoop]
  | cons a rest ih =>
    intro s c
    by_cases ha : a = 0
    · subst ha
      rw [show onlineSiblingsLoop env s (0 :: rest) = onlineSiblingsLoop env s rest
        from rfl, ih]
      constructor
      · rintro (h | ⟨h1, h2, h3, h4⟩)
        · exact Or.inl h
        · exact Or.inr ⟨List.mem_cons_of_mem _ h1, h2, h3, h4⟩
      · rintro (h | ⟨h1, h2, h3, h4⟩)
        · exact Or.inl h
        · rcases List.mem_cons.mp h1 with h1 | h1
          · exact absurd h1 h2
          · exact Or.inr ⟨h1, h2, h3, h4⟩
    · simp only [onlineSiblingsLoop, if_neg ha]
      rw [ih, online_cpu_online_iff]
      constructor
      · rintro ((h | ⟨h1, h2, h3, h4⟩) | ⟨h1, h2, h3, h4⟩)
        · exact Or.inl h
        · exact Or.inr ⟨h1 ▸ List.mem_cons_self a rest, h1 ▸ h2, h1 ▸ h3, h1 ▸ h4⟩
        · exact Or.inr ⟨List.mem_cons_of_mem _ h1, h2, h3, h4⟩
      · rintro (h | ⟨h1, h2, h3, h4⟩)
        · exact Or.inl (Or.inl h)
        · rcases List.mem_cons.mp h1 with h1 | h1
          · exact Or.inl (Or.inr ⟨h1, h1 ▸ h2, h1 ▸ h3, h1 ▸ h4⟩)
          · exact Or.inr ⟨h1, h2, h3, h4⟩

theorem offlineSiblingsLoop_online_iff (env : CoreEnv) (l : List Nat) :
    ∀ (s : CoreState) (c : Nat),
      (offlineSiblingsLoop env s l).2.1.online c = true ↔
        (s.online c = true ∧
          ¬(c ∈ l ∧ c ≠ 0 ∧ env.hasOnlineFile c = true ∧
            env.writeFails c = false)) := by
  induction l with
  | nil => intro s c; simp [offlineSiblingsLoop]
  | cons a rest ih =>
    intro s c
    by_cases ha : a = 0
    · subst ha
      rw [show offlineSiblingsLoop env s (0 :: rest) = offlineSiblingsLoop env s rest
        from rfl, ih]
      constructor
      · rintro ⟨h, hn⟩
        refine ⟨h, fun ⟨h1, h2, h3, h4⟩ => ?_⟩
        rcases List.mem_cons.mp h1 with h1 | h1
        · exact absurd h1 h2
        · exact hn ⟨h1, h2, h3, h4⟩
      · rintro ⟨h, hn⟩
        exact ⟨h, fun ⟨h1, h2, h3, h4⟩ =>
          hn ⟨List.mem_cons_of_mem _ h1, h2, h3, h4⟩⟩
    · simp only [offlineSiblingsLoop, if_neg ha]
      rw [ih, offline_cpu_online_iff]
      constructor
      · rintro ⟨⟨h, hn1⟩, hn2⟩
        refine ⟨h, fun ⟨h1, h2, h3, h4⟩ => ?_⟩
        rcases List.mem_cons.mp h1 with h1 | h1
        · exact hn1 ⟨h1, h1 ▸ h2, h1 ▸ h3, h1 ▸ h4⟩
        · exact hn2 ⟨h1, h2, h3, h4⟩
      · rintro ⟨h, hn⟩
        refine ⟨⟨h, fun ⟨h1, h2, h3, h4⟩ =>
          hn ⟨h1 ▸ List.mem_cons_self a rest, h1 ▸ h2, h1 ▸ h3, h1 ▸ h4⟩⟩,
          fun ⟨h1, h2, h3, h4⟩ =>
          hn ⟨List.mem_cons_of_mem _ h1, h2, h3, h4⟩⟩

theorem onlinePrimaryLoop_online_iff (env : CoreEnv) (l : List Nat) :
    ∀ (s : CoreState) (c : Nat),
      (onlinePrimaryLoop env s l).2.1.online c = true ↔
        (s.online c = true ∨
          (c ∈ primaryOnlineTargets env l ∧ c ≠ 0 ∧
            env.hasOnlineFile c = true ∧ env.writeFails c = false)) := by
  induction l with
  | nil => intro s c; simp [onlinePrimaryLoop, primaryOnlineTargets]
  | cons p rest ih =>
    intro s c
    have hmem : c ∈ primaryOnlineTargets env (p :: rest) ↔
        (c ∈ (if env.smtActive then get_cpu_siblings env p else [p]) ∨
          c ∈ primaryOnlineTargets env rest) := by
      simp [primaryOnlineTargets]
    simp only [onlinePrimaryLoop]
    rw [ih, hmem]
    by_cases hsmt : env.smtActive
    · simp only [if_pos hsmt]
      rw [show (online_physical_core env s p).2.1 =
          (onlineSiblingsLoop env s (get_cpu_siblings env p)).2.1 from rfl,
        onlineSiblingsLoop_online_iff]
      tauto
    · simp only [if_neg hsmt]
      by_cases hp : p = 0
      · subst hp
        simp only [if_neg (by simp : ¬(0 : Nat) ≠ 0), List.mem_singleton]
        by_cases hc : c = 0 <;> simp [hc] <;> tauto
      · simp only [if_pos (by exact hp : p ≠ 0)]
        rw [online_cpu_online_iff]
        simp only [List.mem_singleton]
        by_cases hc : c = p
        · subst hc; tauto
        · simp only [hc, false_and, or_false, false_or]
          try tauto

theorem offlinePrimaryLoop_online_iff (env : CoreEnv) (l : List Nat) :
    ∀ (s : CoreState) (c : Nat),
      (offlinePrimaryLoop env s l).2.1.online c = true ↔
        (s.online c = true ∧
          ¬(c ∈ primaryOfflineTargets env l ∧ c ≠ 0 ∧
            env.hasOnlineFile c = true ∧ env.writeFails c = false)) := by
  induction l with
  | nil => intro s c; simp [offlinePrimaryLoop, primaryOfflineTargets]
  | cons p rest ih =>
    intro s c
    have hmem : c ∈ primaryOfflineTargets env (p :: rest) ↔
        (c ∈ (if p = 0 then ([] : List Nat)
          else if env.smtActive then get_cpu_siblings env p else [p]) ∨
          c ∈ primaryOfflineTargets env rest) := by
      simp [primaryOfflineTargets]
    simp only [offlinePrimaryLoop]
    rw [ih, hmem]
    by_cases hp : p = 0
    · subst hp
      simp only [if_pos rfl, List.not_mem_nil, false_or]
      tauto
    · simp only [if_neg hp]
      by_cases hsmt : env.smtActive
      · simp only [if_pos hsmt]
        rw [show (offline_physical_core env s p).2.1 =
            (offlineSiblingsLoop env s (get_cpu_siblings env p)).2.1 from rfl,
          offlineSiblingsLoop_online_iff]
        tauto
      · simp only [if_neg hsmt]
        rw [offline_cpu_online_iff]
        simp only [List.mem_singleton]
        by_cases hc : c = p
        · subst hc; tauto
        · simp only [hc, false_and, false_or]
          try tauto

theorem onlineSiblingsLoop_result (env : CoreEnv) (l : List Nat)
    (h : ∀ c ∈ l, c ≠ 0 →
      env.hasOnlineFile c = true ∧ env.writeFails c = false) :
    ∀ s : CoreState, (onlineSiblingsLoop env s l).1 = true := by
  induction l with
  | nil => intro s; rfl
  | cons a rest ih =>
    intro s
    have hrest : ∀ c ∈ rest, c ≠ 0 →
        env.hasOnlineFile c = true ∧ env.writeFails c = false :=
      fun c hc => h c (List.mem_cons_of_mem _ hc)
    by_cases ha : a = 0
    · subst ha
      exact ih hrest s
    · obtain ⟨hf, hw⟩ := h a (List.mem_cons_self a rest) ha
      simp only [onlineSiblingsLoop, if_neg ha, ih hrest, Bool.and_true]
      unfold online_cpu
      split_ifs <;> simp_all

theorem offlineSiblingsLoop_result (env : CoreEnv) (l : List Nat)
    (h : ∀ c ∈ l, c ≠ 0 →
      env.hasOnlineFile c = true ∧ env.writeFails c = false) :
    ∀ s : CoreState, (offlineSiblingsLoop env s l).1 = true := by
  induction l with
  | nil => intro s; rfl
  | cons a rest ih =>
    intro s
    have hrest : ∀ c ∈ rest, c ≠ 0 →
        env.hasOnlineFile c = true ∧ env.writeFails c = false :=
      fun c hc => h c (List.mem_cons_of_mem _ hc)
    by_cases ha : a = 0
    · subst ha
      exact ih hrest s
    · obtain ⟨hf, hw⟩ := h a (List.mem_cons_self a rest) ha
      simp only [offlineSiblingsLoop, if_neg ha, ih hrest, Bool.and_true]
      unfold offline_cpu_with_cstate_prep
      split_ifs <;> simp_all

theorem onlinePrimaryLoop_result (env : CoreEnv) (l : List Nat)
    (h : ∀ c ∈ primaryOnlineTargets env l, c ≠ 0 →
      env.hasOnlineFile c = true ∧ env.writeFails c = false) :
    ∀ s : CoreState, (onlinePrimaryLoop env s l).1 = true := by
  induction l with
  | nil => intro s; rfl
  | cons p rest ih =>
    intro s
    have hrest : ∀ c ∈ primaryOnlineTargets env rest, c ≠ 0 →
        env.hasOnlineFile c = true ∧ env.writeFails c = false := by
      intro c hc
      exact h c (by simp [primaryOnlineTargets] at hc ⊢; exact Or.inr hc)
    simp only [onlinePrimaryLoop, ih hrest, Bool.and_true]
    by_cases hsmt : env.smtActive
    · simp only [if_pos hsmt]
      apply onlineSiblingsLoop_result
      intro c hc
      refine h c ?_
      simp [primaryOnlineTargets, hsmt]
      exact Or.inl hc
    · simp only [if_neg hsmt]
      by_cases hp : p = 0
      · simp [hp]
      · simp only [if_pos (by exact hp : p ≠ 0)]
        obtain ⟨hf, hw⟩ := h p
          (by simp [primaryOnlineTargets, hsmt]) hp
        unfold online_cpu
        split_ifs <;> simp_all

theorem offlinePrimaryLoop_result (env : CoreEnv) (l : List Nat)
    (h : ∀ c ∈ primaryOfflineTargets env l, c ≠ 0 →
      env.hasOnlineFile c = true ∧ env.writeFails c = false) :
    ∀ s : CoreState, (offlinePrimaryLoop env s l).1 = true := by
  induction l with
  | nil => intro s; rfl
  | cons p rest ih =>
    intro s
    have hrest : ∀ c ∈ primaryOfflineTargets env rest, c ≠ 0 →
        env.hasOnlineFile c = true ∧ env.writeFails c = false := by
      intro c hc
      exact h c (by simp [primaryOfflineTargets] at hc ⊢; exact Or.inr hc)
    simp only [offlinePrimaryLoop, ih hrest, Bool.and_true]
    by_cases hp : p = 0
    · simp [hp]
    · simp only [if_neg hp]
      by_cases hsmt : env.smtActive
      · simp only [if_pos hsmt]
        apply offlineSiblingsLoop_result
        intro c hc
        refine h c ?_
        simp [primaryOfflineTargets, hsmt, hp]
        exact Or.inl hc
      · simp only [if_neg hsmt]
        obtain ⟨hf, hw⟩ := h p
          (by simp [primaryOfflineTargets, hsmt, hp]) hp
        unfold offline_cpu_with_cstate_prep
        split_ifs <;> simp_all

theorem online_cpu_noop (env : CoreEnv) (s : CoreState) (cpu : Nat)
    (hf : cpu ≠ 0 → env.hasOnlineFile cpu = true)
    (hon : s.online cpu = true) :
    online_cpu env s cpu = (true, s, []) := by
  unfold online_cpu
  split_ifs <;> simp_all

theorem offline_cpu_noop (env : CoreEnv) (s : CoreState) (cpu : Nat)
    (hc : cpu ≠ 0) (hf : env.hasOnlineFile cpu = true)
    (hon : s.online cpu = false) :
    offline_cpu_with_cstate_prep env s cpu = (true, s, []) := by
  unfold offline_cpu_with_cstate_prep
  split_ifs <;> simp_all

theorem onlineSiblingsLoop_noop (env : CoreEnv) (l : List Nat) :
    ∀ s : CoreState,
      (∀ c ∈ l, c ≠ 0 → env.hasOnlineFile c = true ∧ s.online c = true) →
      onlineSiblingsLoop env s l = (true, s, []) := by
  induction l with
  | nil => intro s _; rfl
  | cons a rest ih =>
    intro s h
    have hrest : ∀ c ∈ rest, c ≠ 0 →
        env.hasOnlineFile c = true ∧ s.online c = true :=
      fun c hc => h c (List.mem_cons_of_mem _ hc)
    by_cases ha : a = 0
    · subst ha
      show onlineSiblingsLoop env s rest = (true, s, [])
      exact ih s hrest
    · obtain ⟨hf, hon⟩ := h a (List.mem_cons_self a rest) ha
      simp only [onlineSiblingsLoop, if_neg ha,
        online_cpu_noop env s a (fun _ => hf) hon, ih s hrest]
      rfl

theorem offlineSiblingsLoop_noop (env : CoreEnv) (l : List Nat) :
    ∀ s : CoreState,
      (∀ c ∈ l, c ≠ 0 → env.hasOnlineFile c = true ∧ s.online c = false) →
      offlineSiblingsLoop env s l = (true, s, []) := by
  induction l with
  | nil => intro s _; rfl
  | cons a rest ih =>
    intro s h
    have hrest : ∀ c ∈ rest, c ≠ 0 →
        env.hasOnlineFile c = true ∧ s.online c = false :=
      fun c hc => h c (List.mem_cons_of_mem _ hc)
    by_cases ha : a = 0
    · subst ha
      show offlineSiblingsLoop env s rest = (true, s, [])
      exact ih s hrest
    · obtain ⟨hf, hon⟩ := h a (List.mem_cons_self a rest) ha
      simp only [offlineSiblingsLoop, if_neg ha,
        offline_cpu_noop env s a ha hf hon, ih s hrest]
      rfl

theorem onlinePrimaryLoop_noop (env : CoreEnv) (l : List Nat)
    (s : CoreState)
    (h : ∀ c ∈ primaryOnlineTargets env l, c ≠ 0 →
      env.hasOnlineFile c = true ∧ s.online c = true) :
    onlinePrimaryLoop env s l = (true, s, []) := by
  induction l with
  | nil => rfl
  | cons p rest ih =>
    have hrest : ∀ c ∈ primaryOnlineTargets env rest, c ≠ 0 →
        env.hasOnlineFile c = true ∧ s.online c = true := by
      intro c hc
      exact h c (by simp [primaryOnlineTargets] at hc ⊢; exact Or.inr hc)
    have hstep :
        (if env.smtActive then online_physical_core env s p
          else if p ≠ 0 then online_cpu env s p
          else (true, s, [])) = (true, s, []) := by
      by_cases hsmt : env.smtActive
      · simp only [if_pos hsmt]
        apply onlineSiblingsLoop_noop
        intro c hc
        refine h c ?_
        simp [primaryOnlineTargets, hsmt]
        exact Or.inl hc
      · simp only [if_neg hsmt]
        by_cases hp : p = 0
        · simp [hp]
        · simp only [if_pos (by exact hp : p ≠ 0)]
          obtain ⟨hf, hon⟩ := h p (by simp [primaryOnlineTargets, hsmt]) hp
          exact online_cpu_noop env s p (fun _ => hf) hon
    simp only [onlinePrimaryLoop, hstep, ih hrest]
    rfl

theorem offlinePrimaryLoop_noop (env : CoreEnv) (l : List Nat)
    (s : CoreState)
    (h : ∀ c ∈ primaryOfflineTargets env l, c ≠ 0 →
      env.hasOnlineFile c = true ∧ s.online c = false) :
    offlinePrimaryLoop env s l = (true, s, []) := by
  induction l with
  | nil => rfl
  | cons p rest ih =>
    have hrest : ∀ c ∈ primaryOfflineTargets env rest, c ≠ 0 →
        env.hasOnlineFile c = true ∧ s.online c = false := by
      intro c hc
      exact h c (by simp [primaryOfflineTargets] at hc ⊢; exact Or.inr hc)
    have hstep :
        (if p = 0 then (true, s, [])
          else if env.smtActive then offline_physical_core env s p
          else offline_cpu_with_cstate_prep env s p) = (true, s, []) := by
      by_cases hp : p = 0
      · simp [hp]
      · simp only [if_neg hp]
        by_cases hsmt : env.smtActive
        · simp only [if_pos hsmt]
          apply offlineSiblingsLoop_noop
          intro c hc
          refine h c ?_
          simp [primaryOfflineTargets, hsmt, hp]
          exact Or.inl hc
        · simp only [if_neg hsmt]
          obtain ⟨hf, hon⟩ := h p
            (by simp [primaryOfflineTargets, hsmt, hp]) hp
          exact offline_cpu_noop env s p hp hf hon
    simp only [offlinePrimaryLoop, hstep, ih hrest]
    rfl

theorem online_cpu_trace_cpu (env : CoreEnv) (s : CoreState) (cpu : Nat) :
    ∀ e ∈ (online_cpu env s cpu).2.2, e.cpu = cpu := by
  unfold online_cpu
  split_ifs <;> simp_all [CoreEv.cpu]

theorem offline_cpu_trace_cpu (env : CoreEnv) (s : CoreState) (cpu : Nat) :
    ∀ e ∈ (offline_cpu_with_cstate_prep env s cpu).2.2, e.cpu = cpu := by
  unfold offline_cpu_with_cstate_prep
  split_ifs <;> intro e he <;> simp_all [CoreEv.cpu] <;>
    rcases he with he | he <;> simp_all [CoreEv.cpu]

theorem onlineSiblingsLoop_trace_ne_zero (env : CoreEnv) (l : List Nat) :
    ∀ s : CoreState, ∀ e ∈ (onlineSiblingsLoop env s l).2.2, e.cpu ≠ 0 := by
  induction l with
  | nil => intro s e he; simp [onlineSiblingsLoop] at he
  | cons a rest ih =>
    intro s e he
    by_cases ha : a = 0
    · subst ha
      exact ih s e he
    · simp only [onlineSiblingsLoop, if_neg ha, List.mem_append] at he
      rcases he with he | he
      · rw [online_cpu_trace_cpu env s a e he]; exact ha
      · exact ih _ e he

theorem offlineSiblingsLoop_trace_ne_zero (env : CoreEnv) (l : List Nat) :
    ∀ s : CoreState, ∀ e ∈ (offlineSiblingsLoop env s l).2.2, e.cpu ≠ 0 := by
  induction l with
  | nil => intro s e he; simp [offlineSiblingsLoop] at he
  | cons a rest ih =>
    intro s e he
    by_cases ha : a = 0
    · subst ha
      exact ih s e he
    · simp only [offlineSiblingsLoop, if_neg ha, List.mem_append] at he
      rcases he with he | he
      · rw [offline_cpu_trace_cpu env s a e he]; exact ha
      · exact ih _ e he

theorem onlinePrimaryLoop_trace_ne_zero (env : CoreEnv) (l : List Nat) :
    ∀ s : CoreState, ∀ e ∈ (onlinePrimaryLoop env s l).2.2, e.cpu ≠ 0 := by
  induction l with
  | nil => intro s e he; simp [onlinePrimaryLoop] at he
  | cons p rest ih =>
    intro s e he
    simp only [onlinePrimaryLoop, List.mem_append] at he
    rcases he with he | he
    · by_cases hsmt : env.smtActive
      · rw [if_pos hsmt] at he
        exact onlineSiblingsLoop_trace_ne_zero env _ s e he
      · rw [if_neg hsmt] at he
        by_cases hp : p ≠ 0
        · rw [if_pos hp] at he
          rw [online_cpu_trace_cpu env s p e he]; exact hp
        · rw [if_neg hp] at he
          simp at he
    · exact ih _ e he

theorem offlinePrimaryLoop_trace_ne_zero (env : CoreEnv) (l : List Nat) :
    ∀ s : CoreState, ∀ e ∈ (offlinePrimaryLoop env s l).2.2, e.cpu ≠ 0 := by
  induction l with
  | nil => intro s e he; simp [offlinePrimaryLoop] at he
  | cons p rest ih =>
    intro s e he
    simp only [offlinePrimaryLoop, List.mem_append] at he
    rcases he with he | he
    · by_cases hp : p = 0
      · rw [if_pos hp] at he
        simp at he
      · rw [if_neg hp] at he
        by_cases hsmt : env.smtActive
        · rw [if_pos hsmt] at he
          exact offlineSiblingsLoop_trace_ne_zero env _ s e he
        · rw [if_neg hsmt] at he
          rw [offline_cpu_trace_cpu env s p e he]; exact hp
    · exact ih _ e he

theorem set_cpu_cores_trace_ne_zero (env : CoreEnv) (s : CoreState)
    (target : Int) :
    ∀ e ∈ (set_cpu_cores_with_cstate_optimization env s target).2.2,
      e.cpu ≠ 0 := by
  intro e he
  simp only [set_cpu_cores_with_cstate_optimization, List.mem_append] at he
  rcases he with he | he
  · exact onlinePrimaryLoop_trace_ne_zero env _ s e he
  · exact offlinePrimaryLoop_trace_ne_zero env _ _ e he

theorem set_cpu_cores_eq (env : CoreEnv) (s : CoreState) (target : Int) :
    set_cpu_cores_with_cstate_optimization env s target =
      ((onlinePrimaryLoop env s (keptPrimaries env target)).1 &&
        (offlinePrimaryLoop env
          (onlinePrimaryLoop env s (keptPrimaries env target)).2.1
          (parkedPrimaries env target)).1,
       (offlinePrimaryLoop env
          (onlinePrimaryLoop env s (keptPrimaries env target)).2.1
          (parkedPrimaries env target)).2.1,
       (onlinePrimaryLoop env s (keptPrimaries env target)).2.2 ++
        (offlinePrimaryLoop env
          (onlinePrimaryLoop env s (keptPrimaries env target)).2.1
          (parkedPrimaries env target)).2.2) := rfl

theorem primary_cpus_ne_nil (env : CoreEnv) :
    get_primary_cpus_by_physical_core env ≠ [] := by
  unfold get_primary_cpus_by_physical_core
  match env.primaryCpusCache with
  | none => simp
  | some l =>
    by_cases hl : l.isEmpty
    · simp [hl]
    · simp only [if_neg hl]
      intro hcontra
      subst hcontra
      simp at hl

theorem clampedTarget_bounds (env : CoreEnv) (target : Int) :
    1 ≤ clampedTarget env target ∧
      clampedTarget env target ≤
        (get_primary_cpus_by_physical_core env).length := by
  have hlen : 1 ≤ (get_primary_cpus_by_physical_core env).length :=
    List.length_pos.mpr (primary_cpus_ne_nil env)
  dsimp only [clampedTarget, clampTargetCores]
  split_ifs <;> constructor <;> omega

theorem set_cores_online_of_kept (env : CoreEnv) (s : CoreState)
    (target : Int)
    (hfile : ∀ c ∈ coreOnTargets env target ++ coreOffTargets env target,
      c ≠ 0 → env.hasOnlineFile c = true)
    (hnofail : ∀ c ∈ coreOnTargets env target ++ coreOffTargets env target,
      env.writeFails c = false)
    (hdisj : ∀ c ∈ coreOnTargets env target,
      c ∉ coreOffTargets env target) :
    ∀ c ∈ coreOnTargets env target, c ≠ 0 →
      (set_cpu_cores_with_cstate_optimization env s target).2.1.online c =
        true := by
  intro c hc hc0
  rw [set_cpu_cores_eq]
  have h1 : (onlinePrimaryLoop env s (keptPrimaries env target)).2.1.online c
      = true := by
    rw [onlinePrimaryLoop_online_iff]
    exact Or.inr ⟨hc, hc0,
      hfile c (List.mem_append_left _ hc) hc0,
      hnofail c (List.mem_append_left _ hc)⟩
  rw [show ((onlinePrimaryLoop env s (keptPrimaries env target)).1 &&
      (offlinePrimaryLoop env _ (parkedPrimaries env target)).1,
      (offlinePrimaryLoop env _ (parkedPrimaries env target)).2.1,
      (onlinePrimaryLoop env s (keptPrimaries env target)).2.2 ++
        (offlinePrimaryLoop env _ (parkedPrimaries env target)).2.2).2.1 =
      (offlinePrimaryLoop env
        (onlinePrimaryLoop env s (keptPrimaries env target)).2.1
        (parkedPrimaries env target)).2.1 from rfl]
  rw [offlinePrimaryLoop_online_iff]
  exact ⟨h1, fun ⟨hmem, _, _, _⟩ => hdisj c hc hmem⟩

theorem set_cores_offline_of_parked (env : CoreEnv) (s : CoreState)
    (target : Int)
    (hfile : ∀ c ∈ coreOnTargets env target ++ coreOffTargets env target,
      c ≠ 0 → env.hasOnlineFile c = true)
    (hnofail : ∀ c ∈ coreOnTargets env target ++ coreOffTargets env target,
      env.writeFails c = false) :
    ∀ c ∈ coreOffTargets env target, c ≠ 0 →
      (set_cpu_cores_with_cstate_optimization env s target).2.1.online c =
        false := by
  intro c hc hc0
  rw [set_cpu_cores_eq]
  have hiff := offlinePrimaryLoop_online_iff env (parkedPrimaries env target)
    (onlinePrimaryLoop env s (keptPrimaries env target)).2.1 c
  rw [← Bool.not_eq_true]
  intro hcontra
  have := (hiff.mp hcontra).2
  exact this ⟨hc, hc0, hfile c (List.mem_append_right _ hc) hc0,
    hnofail c (List.mem_append_right _ hc)⟩

theorem set_cores_frame (env : CoreEnv) (s : CoreState) (target : Int) :
    ∀ c, c ∉ coreOnTargets env target → c ∉ coreOffTargets env target →
      (set_cpu_cores_with_cstate_optimization env s target).2.1.online c =
        s.online c := by
  intro c hcOn hcOff
  rw [set_cpu_cores_eq]
  have hiffOff := offlinePrimaryLoop_online_iff env
    (parkedPrimaries env target)
    (onlinePrimaryLoop env s (keptPrimaries env target)).2.1 c
  have hiffOn := onlinePrimaryLoop_online_iff env (keptPrimaries env target)
    s c
  have hmid :
      (onlinePrimaryLoop env s (keptPrimaries env target)).2.1.online c =
        s.online c := by
    rcases Bool.eq_false_or_eq_true (s.online c) with hb | hb
    · rw [hb]
      exact hiffOn.mpr (Or.inl hb)
    · rw [hb, ← Bool.not_eq_true]
      intro hcontra
      rcases hiffOn.mp hcontra with h | ⟨h1, _, _, _⟩
      · rw [hb] at h; exact Bool.false_ne_true h
      · exact hcOn h1
  rcases Bool.eq_false_or_eq_true
      ((onlinePrimaryLoop env s (keptPrimaries env target)).2.1.online c)
    with hb | hb
  · rw [← hmid, hb]
    exact hiffOff.mpr ⟨hb, fun ⟨h1, _, _, _⟩ => hcOff h1⟩
  · rw [← hmid, hb, ← Bool.not_eq_true]
    intro hcontra
    have := (hiffOff.mp hcontra).1
    rw [hb] at this
    exact Bool.false_ne_true this

theorem set_cores_result_true (env : CoreEnv) (s : CoreState) (target : Int)
    (hfile : ∀ c ∈ coreOnTargets env target ++ coreOffTargets env target,
      c ≠ 0 → env.hasOnlineFile c = true)
    (hnofail : ∀ c ∈ coreOnTargets env target ++ coreOffTargets env target,
      env.writeFails c = false) :
    (set_cpu_cores_with_cstate_optimization env s target).1 = true := by
  rw [set_cpu_cores_eq]
  have h1 : (onlinePrimaryLoop env s (keptPrimaries env target)).1 = true :=
    onlinePrimaryLoop_result env _ (fun c hc hc0 =>
      ⟨hfile c (List.mem_append_left _ hc) hc0,
        hnofail c (List.mem_append_left _ hc)⟩) s
  have h2 : (offlinePrimaryLoop env
      (onlinePrimaryLoop env s (keptPrimaries env target)).2.1
      (parkedPrimaries env target)).1 = true :=
    offlinePrimaryLoop_result env _ (fun c hc hc0 =>
      ⟨hfile c (List.mem_append_right _ hc) hc0,
        hnofail c (List.mem_append_right _ hc)⟩) _
  show (_ && _) = true
  rw [h1, h2]
  rfl

theorem set_cores_idempotent (env : CoreEnv) (s : CoreState) (target : Int)
    (hfile : ∀ c ∈ coreOnTargets env target ++ coreOffTargets env target,
      c ≠ 0 → env.hasOnlineFile c = true)
    (hnofail : ∀ c ∈ coreOnTargets env target ++ coreOffTargets env target,
      env.writeFails c = false)
    (hdisj : ∀ c ∈ coreOnTargets env target,
      c ∉ coreOffTargets env target) :
    set_cpu_cores_with_cstate_optimization env
        (set_cpu_cores_with_cstate_optimization env s target).2.1 target =
      (true, (set_cpu_cores_with_cstate_optimization env s target).2.1,
        []) := by
  set s2 := (set_cpu_cores_with_cstate_optimization env s target).2.1
    with hs2
  have hon : onlinePrimaryLoop env s2 (keptPrimaries env target) =
      (true, s2, []) :=
    onlinePrimaryLoop_noop env _ s2 (fun c hc hc0 =>
      ⟨hfile c (List.mem_append_left _ hc) hc0,
        set_cores_online_of_kept env s target hfile hnofail hdisj c hc hc0⟩)
  have hoff : offlinePrimaryLoop env s2 (parkedPrimaries env target) =
      (true, s2, []) :=
    offlinePrimaryLoop_noop env _ s2 (fun c hc hc0 =>
      ⟨hfile c (List.mem_append_right _ hc) hc0,
        set_cores_offline_of_parked env s target hfile hnofail c hc hc0⟩)
  rw [set_cpu_cores_eq env s2 target, hon]
  rw [show ((true, s2, ([] : List CoreEv)) :
      Bool × CoreState × List CoreEv).2.1 = s2 from rfl]
  rw [hoff]
  rfl

/-! ### Claim theorems for the core-parking path -/

/-- C1: no operation on the core-parking path ever offlines CPU 0.
`offline_cpu_with_cstate_prep` applied to CPU 0 returns `false` with the
state untouched and an empty write trace; `offline_physical_core` skips
CPU 0 inside its sibling loop, so no event of its trace touches CPU 0;
and `set_cpu_cores_with_cstate_optimization` never emits an event touching
CPU 0 (in particular no write of `"0"` to CPU 0's online file), for every
environment, state, target count and SMT setting. -/
theorem claim_C1_cpu0_never_offlined :
    (∀ (env : CoreEnv) (s : CoreState),
      offline_cpu_with_cstate_prep env s 0 = (false, s, [])) ∧
    (∀ (env : CoreEnv) (s : CoreState) (primary : Nat),
      (offline_physical_core env s primary).2.2.any touchesCpu0 = false) ∧
    (∀ (env : CoreEnv) (s : CoreState) (target : Int),
      (set_cpu_cores_with_cstate_optimization env s target).2.2.any
        touchesCpu0 = false) := by
  refine ⟨fun env s => rfl, fun env s primary => ?_, fun env s target => ?_⟩
  · rw [List.any_eq_false]
    intro e he
    have h := offlineSiblingsLoop_trace_ne_zero env
      (get_cpu_siblings env primary) s e he
    simp [touchesCpu0, h]
  · rw [List.any_eq_false]
    intro e he
    have h := set_cpu_cores_trace_ne_zero env s target e he
    simp [touchesCpu0, h]

/-- C2: `set_cpu_cores_with_cstate_optimization` clamps the requested
count into `[1, number of physical cores]`, and a fully-successful call
(all hot-plug files present, no write failures, online and offline target
sets disjoint) returns `true`, leaves every CPU of the first
`clampedTarget` physical cores (the lowest-index ones, since the source
builds `_primary_cpus_cache` with `sorted(...)`) online, every nonzero CPU
of the remaining physical cores offline, and every other CPU untouched.
The last conjunct is Scenario A: 8 CPUs, SMT on, siblings
(0,4)(1,5)(2,6)(3,7), target 2, giving online set {0,4,1,5} and offline
set {2,6,3,7}. -/
theorem claim_C2_clamp_and_lowest_cores_online
    (env : CoreEnv) (s : CoreState) (target : Int)
    (hfile : ∀ c ∈ coreOnTargets env target ++ coreOffTargets env target,
      c ≠ 0 → env.hasOnlineFile c = true)
    (hnofail : ∀ c ∈ coreOnTargets env target ++ coreOffTargets env target,
      env.writeFails c = false)
    (hdisj : ∀ c ∈ coreOnTargets env target,
      c ∉ coreOffTargets env target) :
    (1 ≤ clampedTarget env target ∧
      clampedTarget env target ≤
        (get_primary_cpus_by_physical_core env).length) ∧
    (set_cpu_cores_with_cstate_optimization env s target).1 = true ∧
    (∀ c ∈ coreOnTargets env target, c ≠ 0 →
      (set_cpu_cores_with_cstate_optimization env s target).2.1.online c =
        true) ∧
    (∀ c ∈ coreOffTargets env target, c ≠ 0 →
      (set_cpu_cores_with_cstate_optimization env s target).2.1.online c =
        false) ∧
    (∀ c, c ∉ coreOnTargets env target → c ∉ coreOffTargets env target →
      (set_cpu_cores_with_cstate_optimization env s target).2.1.online c =
        s.online c) ∧
    ((set_cpu_cores_with_cstate_optimization envA sAllOnline8 2).1 = true ∧
      (List.range 8).map
        (set_cpu_cores_with_cstate_optimization envA sAllOnline8 2).2.1.online
        = [true, true, false, false, true, true, false, false]) :=
  ⟨clampedTarget_bounds env target,
    set_cores_result_true env s target hfile hnofail,
    set_cores_online_of_kept env s target hfile hnofail hdisj,
    set_cores_offline_of_parked env s target hfile hnofail,
    set_cores_frame env s target,
    by decide⟩

/-- Witness for C2 at Scenario A: hypotheses hold and, for example,
CPU 2 ends offline. -/
theorem claim_C2_witness :
    (∀ c ∈ coreOnTargets envA 2 ++ coreOffTargets envA 2,
      c ≠ 0 → envA.hasOnlineFile c = true) ∧
    (∀ c ∈ coreOnTargets envA 2, c ∉ coreOffTargets envA 2) ∧
    (set_cpu_cores_with_cstate_optimization envA sAllOnline8 2).2.1.online 2
      = false :=
  ⟨by decide, by decide,
    (claim_C2_clamp_and_lowest_cores_online envA sAllOnline8 2 (by decide)
      (by decide) (by decide)).2.2.2.1 2 (by decide) (by decide)⟩

/-- C9: the core-count operation is idempotent on sysfs writes.
`online_cpu` and `offline_cpu_with_cstate_prep` first read the CPU's
current state and return `true` with no write (and no C-state
preparation) when the CPU is already in the requested state; hence a
second `set_cpu_cores_with_cstate_optimization` call with the same target
and unchanged topology returns `true` with an unchanged state and an
empty event trace — zero additional online/offline writes. -/
theorem claim_C9_idempotent_core_count :
    (∀ (env : CoreEnv) (s : CoreState) (cpu : Nat),
      (cpu ≠ 0 → env.hasOnlineFile cpu = true) → s.online cpu = true →
      online_cpu env s cpu = (true, s, [])) ∧
    (∀ (env : CoreEnv) (s : CoreState) (cpu : Nat),
      cpu ≠ 0 → env.hasOnlineFile cpu = true → s.online cpu = false →
      offline_cpu_with_cstate_prep env s cpu = (true, s, [])) ∧
    (∀ (env : CoreEnv) (s : CoreState) (target : Int),
      (∀ c ∈ coreOnTargets env target ++ coreOffTargets env target,
        c ≠ 0 → env.hasOnlineFile c = true) →
      (∀ c ∈ coreOnTargets env target ++ coreOffTargets env target,
        env.writeFails c = false) →
      (∀ c ∈ coreOnTargets env target, c ∉ coreOffTargets env target) →
      set_cpu_cores_with_cstate_optimization env
          (set_cpu_cores_with_cstate_optimization env s target).2.1 target =
        (true, (set_cpu_cores_with_cstate_optimization env s target).2.1,
          [])) :=
  ⟨fun env s cpu hf hon => online_cpu_noop env s cpu hf hon,
    fun env s cpu hc hf hon => offline_cpu_noop env s cpu hc hf hon,
    fun env s target hfile hnofail hdisj =>
      set_cores_idempotent env s target hfile hnofail hdisj⟩

/-- Witness for C9 at Scenario A: hypotheses hold and the second call is
a no-op with an empty trace. -/
theorem claim_C9_witness :
    (∀ c ∈ coreOnTargets envA 2 ++ coreOffTargets envA 2,
      envA.writeFails c = false) ∧
    set_cpu_cores_with_cstate_optimization envA
        (set_cpu_cores_with_cstate_optimization envA sAllOnline8 2).2.1 2 =
      (true,
        (set_cpu_cores_with_cstate_optimization envA sAllOnline8 2).2.1,
        []) :=
  ⟨by decide,
    claim_C9_idempotent_core_count.2.2 envA sAllOnline8 2 (by decide)
      (by decide) (by decide)⟩

/-! ### Lemmas about the boost path -/

theorem perPolicyLoop_trace_mem (env : BoostEnv) (enabled : Bool)
    (l : List Nat) :
    ∀ (s : BoostState) (c : Nat), c ∈ l → env.perPolicyExists c = true →
      BoostEv.policyW c enabled ∈
        (perPolicyBoostLoop env enabled s l).2.2.2 := by
  induction l with
  | nil => intro s c hc; simp at hc
  | cons a rest ih =>
    intro s c hc hex
    by_cases ha : env.perPolicyExists a = true
    · simp only [perPolicyBoostLoop, if_pos ha]
      rcases List.mem_cons.mp hc with hc | hc
      · subst hc
        exact List.mem_cons_self _ _
      · exact List.mem_cons_of_mem _ (ih _ c hc hex)
    · simp only [perPolicyBoostLoop, if_neg ha]
      rcases List.mem_cons.mp hc with hc | hc
      · subst hc
        exact absurd hex ha
      · exact ih s c hc hex

theorem perPolicyLoop_succ_le (env : BoostEnv) (enabled : Bool)
    (l : List Nat) :
    ∀ s : BoostState, (perPolicyBoostLoop env enabled s l).1 ≤
      (perPolicyBoostLoop env enabled s l).2.1 := by
  induction l with
  | nil => intro s; exact Nat.le_refl 0
  | cons a rest ih =>
    intro s
    by_cases ha : env.perPolicyExists a = true
    · simp only [perPolicyBoostLoop, if_pos ha]
      have hs : (if env.perPolicyWriteFails a then
          ((0 : Nat), s) else (1, s.setPolicy a enabled)).1 ≤ 1 := by
        split_ifs <;> simp
      exact Nat.add_le_add hs (ih _)
    · simp only [perPolicyBoostLoop, if_neg ha]
      exact ih s

theorem perPolicyLoop_all_ok (env : BoostEnv) (enabled : Bool)
    (l : List Nat)
    (h : ∀ c ∈ l, env.perPolicyExists c = true →
      env.perPolicyWriteFails c = false) :
    ∀ s : BoostState, (perPolicyBoostLoop env enabled s l).1 =
      (perPolicyBoostLoop env enabled s l).2.1 := by
  induction l with
  | nil => intro s; rfl
  | cons a rest ih =>
    intro s
    have hrest : ∀ c ∈ rest, env.perPolicyExists c = true →
        env.perPolicyWriteFails c = false :=
      fun c hc => h c (List.mem_cons_of_mem _ hc)
    by_cases ha : env.perPolicyExists a = true
    · have hok := h a (List.mem_cons_self a rest) ha
      simp [perPolicyBoostLoop, ha, hok, ih hrest]
    · simp only [perPolicyBoostLoop, if_neg ha]
      exact ih hrest s

theorem perPolicyLoop_fail_lt (env : BoostEnv) (enabled : Bool)
    (l : List Nat) (c : Nat) (hc : c ∈ l)
    (hex : env.perPolicyExists c = true)
    (hfail : env.perPolicyWriteFails c = true) :
    ∀ s : BoostState, (perPolicyBoostLoop env enabled s l).1 <
      (perPolicyBoostLoop env enabled s l).2.1 := by
  induction l with
  | nil => simp at hc
  | cons a rest ih =>
    intro s
    rcases List.mem_cons.mp hc with hca | hca
    · subst hca
      simp [perPolicyBoostLoop, hex, hfail]
      have := perPolicyLoop_succ_le env enabled rest s
      omega
    · by_cases ha : env.perPolicyExists a = true
      · simp only [perPolicyBoostLoop, if_pos ha]
        have hlt := ih hca
          ((if env.perPolicyWriteFails a then ((0 : Nat), s)
            else (1, s.setPolicy a enabled)).2)
        have hle : (if env.perPolicyWriteFails a then ((0 : Nat), s)
            else (1, s.setPolicy a enabled)).1 ≤ 1 := by
          split_ifs <;> simp
        omega
      · simp only [perPolicyBoostLoop, if_neg ha]
        exact ih hca s

theorem perPolicyLoop_att_pos (env : BoostEnv) (enabled : Bool)
    (l : List Nat) (c : Nat) (hc : c ∈ l)
    (hex : env.perPolicyExists c = true) :
    ∀ s : BoostState, 0 < (perPolicyBoostLoop env enabled s l).2.1 := by
  induction l with
  | nil => simp at hc
  | cons a rest ih =>
    intro s
    rcases List.mem_cons.mp hc with hca | hca
    · subst hca
      simp only [perPolicyBoostLoop, if_pos hex]
      omega
    · by_cases ha : env.perPolicyExists a = true
      · simp only [perPolicyBoostLoop, if_pos ha]
        omega
      · simp only [perPolicyBoostLoop, if_neg ha]
        exact ih hca s

theorem perPolicyLoop_keeps_set (env : BoostEnv) (enabled : Bool)
    (l : List Nat) :
    ∀ (s : BoostState) (c : Nat), s.perPolicyBoost c = enabled →
      (perPolicyBoostLoop env enabled s l).2.2.1.perPolicyBoost c =
        enabled := by
  induction l with
  | nil => intro s c h; exact h
  | cons a rest ih =>
    intro s c h
    by_cases ha : env.perPolicyExists a = true
    · simp only [perPolicyBoostLoop, if_pos ha]
      apply ih
      split_ifs with hw
      · exact h
      · simp only [BoostState.setPolicy]
        by_cases hca : c = a <;> simp [hca, h]
    · simp only [perPolicyBoostLoop, if_neg ha]
      exact ih s c h

theorem perPolicyLoop_sets (env : BoostEnv) (enabled : Bool)
    (l : List Nat) :
    ∀ (s : BoostState) (c : Nat), c ∈ l →
      env.perPolicyExists c = true →
      env.perPolicyWriteFails c = false →
      (perPolicyBoostLoop env enabled s l).2.2.1.perPolicyBoost c =
        enabled := by
  induction l with
  | nil => intro s c hc; simp at hc
  | cons a rest ih =>
    intro s c hc hex hok
    rcases List.mem_cons.mp hc with hca | hca
    · subst hca
      simp only [perPolicyBoostLoop, if_pos hex,
        if_neg (by simp [hok] : ¬env.perPolicyWriteFails c = true)]
      apply perPolicyLoop_keeps_set
      simp [BoostState.setPolicy]
    · by_cases ha : env.perPolicyExists a = true
      · simp only [perPolicyBoostLoop, if_pos ha]
        exact ih _ c hca hex hok
      · simp only [perPolicyBoostLoop, if_neg ha]
        exact ih s c hca hex hok

theorem perPolicyLoop_freq (env : BoostEnv) (enabled : Bool)
    (l : List Nat) :
    ∀ s : BoostState,
      (perPolicyBoostLoop env enabled s l).2.2.1.freq = s.freq := by
  induction l with
  | nil => intro s; rfl
  | cons a rest ih =>
    intro s
    by_cases ha : env.perPolicyExists a = true
    · simp only [perPolicyBoostLoop, if_pos ha]
      rw [ih]
      split_ifs <;> rfl
    · simp only [perPolicyBoostLoop, if_neg ha]
      exact ih s

theorem applyBoostFreqLimits_perPolicy (env : BoostEnv) (s : BoostState)
    (enabled : Bool) :
    (applyBoostFreqLimits env s enabled).1.perPolicyBoost =
      s.perPolicyBoost := by
  unfold applyBoostFreqLimits get_cpu_frequency_range
  split_ifs <;> rfl

theorem set_cpu_boost_fallback_eq (env : BoostEnv) (s : BoostState)
    (enabled : Bool)
    (H1 : env.intelNoTurboExists = false)
    (H2 : env.amdGlobalExists = false ∨ env.amdGlobalWriteFails = true) :
    set_cpu_boost env s enabled =
      (if 0 < (perPolicyBoostLoop env enabled s env.freq.onlineCpus).2.1 ∧
          (perPolicyBoostLoop env enabled s env.freq.onlineCpus).1 =
            (perPolicyBoostLoop env enabled s env.freq.onlineCpus).2.1 then
        (true,
          (applyBoostFreqLimits env
            (perPolicyBoostLoop env enabled s env.freq.onlineCpus).2.2.1
            enabled).1,
          ((if env.amdGlobalExists then [BoostEv.amdW enabled] else []) ++
              (perPolicyBoostLoop env enabled s env.freq.onlineCpus).2.2.2)
            ++ (applyBoostFreqLimits env
              (perPolicyBoostLoop env enabled s env.freq.onlineCpus).2.2.1
              enabled).2)
      else
        (false,
          (perPolicyBoostLoop env enabled s env.freq.onlineCpus).2.2.1,
          (if env.amdGlobalExists then [BoostEv.amdW enabled] else []) ++
            (perPolicyBoostLoop env enabled s env.freq.onlineCpus).2.2.2))
    := by
  have hamd : env.amdGlobalExists = true →
      env.amdGlobalWriteFails = true := by
    rcases H2 with h2 | h2
    · intro h; rw [h2] at h; exact absurd h (by simp)
    · intro _; exact h2
  by_cases hae : env.amdGlobalExists = true
  · have hf := hamd hae
    by_cases hcond : 0 <
        (perPolicyBoostLoop env enabled s env.freq.onlineCpus).2.1 ∧
        (perPolicyBoostLoop env enabled s env.freq.onlineCpus).1 =
          (perPolicyBoostLoop env enabled s env.freq.onlineCpus).2.1 <;>
      simp [set_cpu_boost, H1, hae, hf, hcond]
  · have hae' : env.amdGlobalExists = false := by
      simpa using hae
    by_cases hcond : 0 <
        (perPolicyBoostLoop env enabled s env.freq.onlineCpus).2.1 ∧
        (perPolicyBoostLoop env enabled s env.freq.onlineCpus).1 =
          (perPolicyBoostLoop env enabled s env.freq.onlineCpus).2.1 <;>
      simp [set_cpu_boost, H1, hae', hcond]

/-! ### Claim theorems for the frequency-limit path -/

/-- C10: calling `set_cpu_frequency_limits` with both `min_freq_khz` and
`max_freq_khz` omitted returns `false` immediately, with an empty event
trace (no sysfs reads or writes) and the frequency state of every CPU
unchanged. -/
theorem claim_C10_both_none_rejected_without_io :
    ∀ (env : FreqEnv) (s : FreqState),
      set_cpu_frequency_limits env s none none = (false, s, []) :=
  fun _ _ => rfl

/-- C6: whenever a requested min or max lies outside the hardware range
reported by `get_cpu_frequency_range`, or both are given with min greater
than max, `set_cpu_frequency_limits` returns `false` with the state
unchanged and a trace containing only the `cpuinfo` range read — zero
sysfs writes attempted. -/
theorem claim_C6_invalid_limits_rejected_without_writes
    (env : FreqEnv) (s : FreqState) (minO maxO : Option Nat)
    (hinfo : env.cpuinfoExists = true)
    (hbad : outOfRange env.cpuinfoMin env.cpuinfoMax minO = true ∨
      outOfRange env.cpuinfoMin env.cpuinfoMax maxO = true ∨
      minOverMax minO maxO = true) :
    set_cpu_frequency_limits env s minO maxO =
      (false, s, [FreqEv.cpuinfoRead]) := by
  have hnn : ¬(minO.isNone ∧ maxO.isNone) := by
    rintro ⟨h1, h2⟩
    rw [Option.isNone_iff_eq_none] at h1 h2
    subst h1
    subst h2
    simp [outOfRange, minOverMax] at hbad
  have hnn2 : ¬(minO = none ∧ maxO = none) := by
    rintro ⟨h1, h2⟩
    exact hnn ⟨by simp [h1], by simp [h2]⟩
  rcases hbad with hb | hb | hb <;>
    simp [set_cpu_frequency_limits, get_cpu_frequency_range, hinfo, hnn,
      hnn2, hb, ite_self]

/-- Witness for C6: a requested min of 300000 kHz below the hardware
minimum of 400000 kHz is rejected with no writes. -/
theorem claim_C6_witness :
    (freqEnvW.cpuinfoExists = true ∧
      outOfRange freqEnvW.cpuinfoMin freqEnvW.cpuinfoMax (some 300000) =
        true) ∧
    set_cpu_frequency_limits freqEnvW freqStateW (some 300000)
        (some 3000000) = (false, freqStateW, [FreqEv.cpuinfoRead]) :=
  ⟨⟨rfl, by decide⟩,
    claim_C6_invalid_limits_rejected_without_writes freqEnvW freqStateW
      (some 300000) (some 3000000) rfl (Or.inl (by decide))⟩

/-- C7: two-phase ordering of the per-CPU frequency-limit writes.
When the requested max is below the CPU's currently configured min (and
the state is well formed, writes accepted), the write sequence is the
temporary min write (lowered to the new max), then the max write, then
the final min write when a min is requested.  When both limits are
requested and the requested min is above the currently configured max,
the sequence is the max write followed by the min write — the min write
never precedes a conflicting max write.  The last conjunct ties the
per-CPU body to `set_cpu_frequency_limits`: after its validations the
full trace is the range read followed by the per-CPU trace. -/
theorem claim_C7_two_phase_write_ordering :
    (∀ (env : FreqEnv) (s : FreqState) (cpu : Nat) (minO : Option Nat)
      (M : Nat),
      env.minWriteFails cpu = false → env.maxWriteFails cpu = false →
      s.scalingMin cpu ≤ s.scalingMax cpu → M < s.scalingMin cpu →
      (applyFreqLimitsCpu env s cpu minO (some M)).2.2 =
        FreqEv.rdLimits cpu :: FreqEv.wrMin cpu M :: FreqEv.wrMax cpu M ::
          (match minO with
            | some m => [FreqEv.wrMin cpu m]
            | none => [])) ∧
    (∀ (env : FreqEnv) (s : FreqState) (cpu : Nat) (m M : Nat),
      env.minWriteFails cpu = false → env.maxWriteFails cpu = false →
      m ≤ M → s.scalingMax cpu < m →
      (applyFreqLimitsCpu env s cpu (some m) (some M)).2.2 =
        [FreqEv.rdLimits cpu, FreqEv.wrMax cpu M, FreqEv.wrMin cpu m]) ∧
    (∀ (env : FreqEnv) (s : FreqState) (cpu : Nat) (minO maxO : Option Nat),
      env.onlineCpus = [cpu] → env.freqFilesExist cpu = true →
      env.cpuinfoExists = true → ¬(minO.isNone ∧ maxO.isNone) →
      outOfRange env.cpuinfoMin env.cpuinfoMax minO = false →
      outOfRange env.cpuinfoMin env.cpuinfoMax maxO = false →
      minOverMax minO maxO = false →
      (set_cpu_frequency_limits env s minO maxO).2.2 =
        FreqEv.cpuinfoRead :: (applyFreqLimitsCpu env s cpu minO maxO).2.2)
    := by
  refine ⟨?_, ?_, ?_⟩
  · intro env s cpu minO M h1 h2 h3 h4
    have h5 : M < s.scalingMax cpu := lt_of_lt_of_le h4 h3
    cases minO <;> simp [applyFreqLimitsCpu, h1, h2, h4, h5]
  · intro env s cpu m M h1 h2 h3 h4
    have h5 : ¬(M < s.scalingMax cpu) :=
      not_lt.mpr (le_of_lt (lt_of_lt_of_le h4 h3))
    simp [applyFreqLimitsCpu, h1, h2, h5]
  · intro env s cpu minO maxO hon hex hinfo hnn hv1 hv2 hv3
    have hnn2 : ¬(minO = none ∧ maxO = none) := by
      rintro ⟨h1, h2⟩
      exact hnn ⟨by simp [h1], by simp [h2]⟩
    simp [set_cpu_frequency_limits, get_cpu_frequency_range, freqLimitsLoop,
      hon, hex, hinfo, hnn, hnn2, hv1, hv2, hv3]

/-- Witness for C7: lowering max to 600000 kHz on a CPU configured at
800000-2800000 kHz with a final min of 500000 kHz produces exactly the
sequence min←600000, max←600000, min←500000. -/
theorem claim_C7_witness :
    (freqEnvW.minWriteFails 0 = false ∧
      freqStateW.scalingMin 0 ≤ freqStateW.scalingMax 0 ∧
      600000 < freqStateW.scalingMin 0) ∧
    (applyFreqLimitsCpu freqEnvW freqStateW 0 (some 500000)
        (some 600000)).2.2 =
      [FreqEv.rdLimits 0, FreqEv.wrMin 0 600000, FreqEv.wrMax 0 600000,
        FreqEv.wrMin 0 500000] :=
  ⟨⟨rfl, by decide, by decide⟩, by
    rw [claim_C7_two_phase_write_ordering.1 freqEnvW freqStateW 0
      (some 500000) 600000 rfl rfl (by decide) (by decide)]⟩

/-! ### Claim theorems for the boost path -/

theorem applyBoostFreqLimits_freq (env : BoostEnv) (x : BoostState)
    (enabled : Bool) (hinfo : env.freq.cpuinfoExists = true) :
    (applyBoostFreqLimits env x enabled).1.freq =
      (set_cpu_frequency_limits env.freq x.freq (some env.freq.cpuinfoMin)
        (some env.freq.cpuinfoMax)).2.1 := by
  unfold applyBoostFreqLimits get_cpu_frequency_range
  rw [if_pos hinfo]
  by_cases he : enabled = true <;> simp [he]

/-- C5: with no Intel `no_turbo` file and the AMD global boost write
unavailable or failing, `set_cpu_boost` attempts the per-policy boost
write of every online CPU; it returns `true` only if every one of those
writes succeeds; when some per-policy write fails it returns `false`, yet
every other online CPU's per-policy flag has still been flipped to the
requested value — a `false` return does not mean no side effects
occurred.  The last conjunct shows the converse: with every write
succeeding (and at least one CPU online) the call returns `true`. -/
theorem claim_C5_per_policy_fallback_strict
    (env : BoostEnv) (s : BoostState) (enabled : Bool)
    (H1 : env.intelNoTurboExists = false)
    (H2 : env.amdGlobalExists = false ∨ env.amdGlobalWriteFails = true)
    (H3 : ∀ c ∈ env.freq.onlineCpus, env.perPolicyExists c = true) :
    (∀ c ∈ env.freq.onlineCpus,
      BoostEv.policyW c enabled ∈ (set_cpu_boost env s enabled).2.2) ∧
    ((set_cpu_boost env s enabled).1 = true →
      ∀ c ∈ env.freq.onlineCpus, env.perPolicyWriteFails c = false) ∧
    (∀ f ∈ env.freq.onlineCpus, env.perPolicyWriteFails f = true →
      (set_cpu_boost env s enabled).1 = false ∧
      ∀ c ∈ env.freq.onlineCpus, env.perPolicyWriteFails c = false →
        (set_cpu_boost env s enabled).2.1.perPolicyBoost c = enabled) ∧
    ((∀ c ∈ env.freq.onlineCpus, env.perPolicyWriteFails c = false) →
      env.freq.onlineCpus ≠ [] →
      (set_cpu_boost env s enabled).1 = true) := by
  have heq := set_cpu_boost_fallback_eq env s enabled H1 H2
  refine ⟨?_, ?_, ?_, ?_⟩
  · intro c hc
    rw [heq]
    have hmem := perPolicyLoop_trace_mem env enabled env.freq.onlineCpus s
      c hc (H3 c hc)
    by_cases hcond : 0 <
        (perPolicyBoostLoop env enabled s env.freq.onlineCpus).2.1 ∧
        (perPolicyBoostLoop env enabled s env.freq.onlineCpus).1 =
          (perPolicyBoostLoop env enabled s env.freq.onlineCpus).2.1
    · rw [if_pos hcond]
      exact List.mem_append_left _ (List.mem_append_right _ hmem)
    · rw [if_neg hcond]
      exact List.mem_append_right _ hmem
  · intro hres c hc
    rw [heq] at hres
    by_cases hcond : 0 <
        (perPolicyBoostLoop env enabled s env.freq.onlineCpus).2.1 ∧
        (perPolicyBoostLoop env enabled s env.freq.onlineCpus).1 =
          (perPolicyBoostLoop env enabled s env.freq.onlineCpus).2.1
    · rcases Bool.eq_false_or_eq_true (env.perPolicyWriteFails c)
        with hb | hb
      · exact absurd hb (by
          intro hfail
          have hlt := perPolicyLoop_fail_lt env enabled
            env.freq.onlineCpus c hc (H3 c hc) hfail s
          omega)
      · exact hb
    · rw [if_neg hcond] at hres
      simp at hres
  · intro f hf hfail
    have hlt := perPolicyLoop_fail_lt env enabled env.freq.onlineCpus f hf
      (H3 f hf) hfail s
    have hcond : ¬(0 <
        (perPolicyBoostLoop env enabled s env.freq.onlineCpus).2.1 ∧
        (perPolicyBoostLoop env enabled s env.freq.onlineCpus).1 =
          (perPolicyBoostLoop env enabled s env.freq.onlineCpus).2.1) := by
      rintro ⟨_, h2⟩
      omega
    refine ⟨by rw [heq, if_neg hcond], ?_⟩
    intro c hc hok
    rw [heq, if_neg hcond]
    exact perPolicyLoop_sets env enabled env.freq.onlineCpus s c hc
      (H3 c hc) hok
  · intro hok hne
    obtain ⟨c0, hc0⟩ := List.exists_mem_of_ne_nil env.freq.onlineCpus hne
    have hpos := perPolicyLoop_att_pos env enabled env.freq.onlineCpus c0
      hc0 (H3 c0 hc0) s
    have hsa := perPolicyLoop_all_ok env enabled env.freq.onlineCpus
      (fun c hc _ => hok c hc) s
    rw [heq, if_pos ⟨hpos, hsa⟩]

/-- Witness for C5 at Scenario C: 4 online CPUs on a per-policy system,
CPU 2's write fails; the call returns `false` but CPUs 0, 1 and 3 have
already been flipped to boost off. -/
theorem claim_C5_witness :
    (boostEnvC.intelNoTurboExists = false ∧
      boostEnvC.perPolicyWriteFails 2 = true) ∧
    (set_cpu_boost boostEnvC boostStateW false).1 = false ∧
    (set_cpu_boost boostEnvC boostStateW false).2.1.perPolicyBoost 0 =
      false ∧
    (set_cpu_boost boostEnvC boostStateW false).2.1.perPolicyBoost 1 =
      false ∧
    (set_cpu_boost boostEnvC boostStateW false).2.1.perPolicyBoost 3 =
      false := by
  have H := claim_C5_per_policy_fallback_strict boostEnvC boostStateW false
    rfl (Or.inl rfl) (by decide)
  have H3 := H.2.2.1 2 (by decide) rfl
  exact ⟨⟨rfl, rfl⟩, H3.1, H3.2 0 (by decide) rfl, H3.2 1 (by decide) rfl,
    H3.2 3 (by decide) rfl⟩

/-- Counterexample for C8 as stated: on a system whose boost change
succeeds (AMD global switch) with hardware range 400000-3500000 kHz and
scaling max currently 2000000 kHz, `set_cpu_boost false` succeeds and
sets the scaling max to 3500000 kHz — exactly `cpuinfo_max_freq`, the
full hardware max, and the same value the boost-enabled call applies; no
distinct non-turbo ceiling is computed. -/
theorem claim_C8_counterexample :
    (set_cpu_boost boostEnvG boostStateW false).1 = true ∧
    boostEnvG.freq.cpuinfoMax = 3500000 ∧
    (set_cpu_boost boostEnvG boostStateW false).2.1.freq.scalingMax 0 =
      3500000 ∧
    (set_cpu_boost boostEnvG boostStateW true).2.1.freq.scalingMax 0 =
      3500000 := by
  decide

theorem set_cpu_boost_global_eq (env : BoostEnv) (s : BoostState)
    (enabled : Bool)
    (H : env.intelNoTurboExists = true ∨
      (env.amdGlobalExists = true ∧ env.amdGlobalWriteFails = false)) :
    ∃ x : BoostState, x.freq = s.freq ∧
      set_cpu_boost env s enabled =
        (true, (applyBoostFreqLimits env x enabled).1,
          ((if env.intelNoTurboExists then [BoostEv.intelW (!enabled)]
              else []) ++
            (if env.amdGlobalExists then [BoostEv.amdW enabled] else [])) ++
          (applyBoostFreqLimits env x enabled).2) := by
  rcases H with hI | ⟨hA, hAF⟩
  · rcases Bool.eq_false_or_eq_true env.amdGlobalExists with hA | hA
    · rcases Bool.eq_false_or_eq_true env.amdGlobalWriteFails with hAF | hAF
      · refine ⟨{ s with intelNoTurbo := !enabled }, rfl, ?_⟩
        simp [set_cpu_boost, hI, hA, hAF]
      · refine ⟨{ { s with intelNoTurbo := !enabled } with
          amdGlobalBoost := enabled }, rfl, ?_⟩
        simp [set_cpu_boost, hI, hA, hAF]
    · refine ⟨{ s with intelNoTurbo := !enabled }, rfl, ?_⟩
      simp [set_cpu_boost, hI, hA]
  · rcases Bool.eq_false_or_eq_true env.intelNoTurboExists with hI | hI
    · refine ⟨{ { s with intelNoTurbo := !enabled } with
        amdGlobalBoost := enabled }, rfl, ?_⟩
      simp [set_cpu_boost, hI, hA, hAF]
    · refine ⟨{ s with amdGlobalBoost := enabled }, rfl, ?_⟩
      simp [set_cpu_boost, hI, hA, hAF]

/-- C8 (amended): whenever `set_cpu_boost` succeeds and the hardware
range is readable, it immediately re-applies frequency limits via
`set_cpu_frequency_limits` with min = `cpuinfo_min_freq` and max =
`cpuinfo_max_freq` as re-read after the change — identically for boost
enabled and disabled.  The disabled branch's `base_freq` is assigned from
`freq_range['max_freq_khz']` itself, so the code computes no distinct
non-turbo ceiling; it relies on the kernel to make `cpuinfo_max_freq`
reflect the boost state. -/
theorem claim_C8_boost_reapplies_cpuinfo_range
    (env : BoostEnv) (s : BoostState) (enabled : Bool)
    (hres : (set_cpu_boost env s enabled).1 = true)
    (hinfo : env.freq.cpuinfoExists = true) :
    (set_cpu_boost env s enabled).2.1.freq =
      (set_cpu_frequency_limits env.freq s.freq (some env.freq.cpuinfoMin)
        (some env.freq.cpuinfoMax)).2.1 := by
  by_cases hglob : env.intelNoTurboExists = true ∨
      (env.amdGlobalExists = true ∧ env.amdGlobalWriteFails = false)
  · obtain ⟨x, hx, heq⟩ := set_cpu_boost_global_eq env s enabled hglob
    rw [heq]
    show (applyBoostFreqLimits env x enabled).1.freq = _
    rw [applyBoostFreqLimits_freq env x enabled hinfo, hx]
  · push_neg at hglob
    have H1 : env.intelNoTurboExists = false := by
      rcases Bool.eq_false_or_eq_true env.intelNoTurboExists with h | h
      · exact absurd h hglob.1
      · exact h
    have H2 : env.amdGlobalExists = false ∨
        env.amdGlobalWriteFails = true := by
      rcases Bool.eq_false_or_eq_true env.amdGlobalExists with h | h
      · rcases Bool.eq_false_or_eq_true env.amdGlobalWriteFails
          with h2 | h2
        · exact Or.inr h2
        · exact absurd h2 (by
            intro hb
            exact hglob.2 h hb)
      · exact Or.inl h
    have heq := set_cpu_boost_fallback_eq env s enabled H1 H2
    rw [heq] at hres ⊢
    by_cases hcond : 0 <
        (perPolicyBoostLoop env enabled s env.freq.onlineCpus).2.1 ∧
        (perPolicyBoostLoop env enabled s env.freq.onlineCpus).1 =
          (perPolicyBoostLoop env enabled s env.freq.onlineCpus).2.1
    · rw [if_pos hcond]
      show (applyBoostFreqLimits env _ enabled).1.freq = _
      rw [applyBoostFreqLimits_freq env _ enabled hinfo,
        perPolicyLoop_freq]
    · rw [if_neg hcond] at hres
      simp at hres

/-- Witness for C8 (amended): on the AMD-global-switch system the
disable call succeeds and the final limits are exactly those of a
`set_cpu_frequency_limits` call with the full hardware range. -/
theorem claim_C8_witness :
    ((set_cpu_boost boostEnvG boostStateW false).1 = true ∧
      boostEnvG.freq.cpuinfoExists = true) ∧
    (set_cpu_boost boostEnvG boostStateW false).2.1.freq =
      (set_cpu_frequency_limits boostEnvG.freq boostStateW.freq
        (some boostEnvG.freq.cpuinfoMin)
        (some boostEnvG.freq.cpuinfoMax)).2.1 :=
  ⟨⟨by decide, rfl⟩,
    claim_C8_boost_reapplies_cpuinfo_range boostEnvG boostStateW false
      (by decide) rfl⟩

/-! ### Lemmas and claim theorems for the governor and EPP paths -/

theorem mainGovernorTarget_fallback (env : GovEnv) (g : String)
    (hg : g ∉ mainAvailableGovernors env) :
    mainGovernorTarget env g = sPowersave := by
  unfold mainGovernorTarget
  rw [if_neg hg]
  unfold governorMapping
  split_ifs <;> rfl

theorem govWriteLoop_result_true (env : GovEnv) (target : String)
    (l : List Nat) (h : ∀ c ∈ l, env.govWriteFails c = false) :
    ∀ s : GovState, (govWriteLoop env target s l).1 = true := by
  induction l with
  | nil => intro s; rfl
  | cons a rest ih =>
    intro s
    have hrest : ∀ c ∈ rest, env.govWriteFails c = false :=
      fun c hc => h c (List.mem_cons_of_mem _ hc)
    by_cases ha : env.govFileExists a = true
    · have hok := h a (List.mem_cons_self a rest)
      simp [govWriteLoop, ha, hok, ih hrest]
    · simp only [govWriteLoop, if_neg ha]
      exact ih hrest s

theorem govWriteLoop_keeps (env : GovEnv) (target : String)
    (l : List Nat) :
    ∀ (s : GovState) (c : Nat), s.governor c = target →
      (govWriteLoop env target s l).2.1.governor c = target := by
  induction l with
  | nil => intro s c h; exact h
  | cons a rest ih =>
    intro s c h
    by_cases ha : env.govFileExists a = true
    · simp only [govWriteLoop, if_pos ha]
      apply ih
      split_ifs with hw
      · exact h
      · by_cases hca : c = a <;> simp [hca, h]
    · simp only [govWriteLoop, if_neg ha]
      exact ih s c h

theorem govWriteLoop_sets (env : GovEnv) (target : String)
    (l : List Nat) :
    ∀ (s : GovState) (c : Nat), c ∈ l → env.govFileExists c = true →
      env.govWriteFails c = false →
      (govWriteLoop env target s l).2.1.governor c = target := by
  induction l with
  | nil => intro s c hc; simp at hc
  | cons a rest ih =>
    intro s c hc hex hok
    rcases List.mem_cons.mp hc with hca | hca
    · subst hca
      simp only [govWriteLoop, if_pos hex,
        if_neg (by simp [hok] : ¬env.govWriteFails c = true)]
      apply govWriteLoop_keeps
      simp
    · by_cases ha : env.govFileExists a = true
      · simp only [govWriteLoop, if_pos ha]
        exact ih _ c hca hex hok
      · simp only [govWriteLoop, if_neg ha]
        exact ih s c hca hex hok

theorem govWriteLoop_trace_val (env : GovEnv) (target : String)
    (l : List Nat) :
    ∀ (s : GovState), ∀ e ∈ (govWriteLoop env target s l).2.2,
      e.2 = target := by
  induction l with
  | nil => intro s e he; simp [govWriteLoop] at he
  | cons a rest ih =>
    intro s e he
    by_cases ha : env.govFileExists a = true
    · simp only [govWriteLoop, if_pos ha, List.mem_cons] at he
      rcases he with he | he
      · rw [he]
      · exact ih _ e he
    · simp only [govWriteLoop, if_neg ha] at he
      exact ih s e he

/-- C4: for every requested governor not in the live available list,
`set_power_governor` (the governor-setting path; `CPUManager.set_governor`
merely validates) remaps the request to "powersave" — both for the four
documented unsupported choices and generically — writes that fallback to
every online CPU's `scaling_governor`, and returns `true` when the writes
are accepted.  The last conjunct is Scenario D: requesting "ondemand" on
a driver exposing only ["performance", "powersave"] applies "powersave"
and returns `true`. -/
theorem claim_C4_unavailable_governor_falls_back_to_powersave
    (env : GovEnv) (s : GovState) (g : String)
    (hg : g ∉ mainAvailableGovernors env)
    (hok : ∀ cpu ∈ env.onlineCpus, env.govWriteFails cpu = false) :
    (set_power_governor env s g).1 = true ∧
    mainGovernorTarget env g = sPowersave ∧
    (∀ cpu ∈ env.onlineCpus, env.govFileExists cpu = true →
      (set_power_governor env s g).2.1.governor cpu = sPowersave) ∧
    (∀ e ∈ (set_power_governor env s g).2.2, e.2 = sPowersave) ∧
    ((set_power_governor govEnvD govStateD sOndemand).1 = true ∧
      (set_power_governor govEnvD govStateD sOndemand).2.1.governor 0 =
        sPowersave) := by
  have htgt := mainGovernorTarget_fallback env g hg
  refine ⟨?_, htgt, ?_, ?_, by decide⟩
  · show (govWriteLoop env (mainGovernorTarget env g) s
      env.onlineCpus).1 = true
    exact govWriteLoop_result_true env _ env.onlineCpus hok s
  · intro cpu hc hex
    show (govWriteLoop env (mainGovernorTarget env g) s
      env.onlineCpus).2.1.governor cpu = sPowersave
    rw [htgt]
    exact govWriteLoop_sets env sPowersave env.onlineCpus s cpu hc hex
      (hok cpu hc)
  · intro e he
    rw [← htgt]
    exact govWriteLoop_trace_val env _ env.onlineCpus s e he

/-- Witness for C4 at Scenario D: "ondemand" is not available, no write
fails, the call returns `true` and CPU 1 ends on "powersave". -/
theorem claim_C4_witness :
    (sOndemand ∉ mainAvailableGovernors govEnvD ∧
      (∀ cpu ∈ govEnvD.onlineCpus, govEnvD.govWriteFails cpu = false)) ∧
    (set_power_governor govEnvD govStateD sOndemand).1 = true ∧
    (set_power_governor govEnvD govStateD sOndemand).2.1.governor 1 =
      sPowersave := by
  have H := claim_C4_unavailable_governor_falls_back_to_powersave govEnvD
    govStateD sOndemand (by decide) (by decide)
  exact ⟨⟨by decide, by decide⟩, H.1, H.2.2.1 1 (by decide) rfl⟩

/-- C3 (documents a code bug): `set_epp` rejects a value not in the live
available-EPP list with `false` and zero writes.  But in the
performance-governor case the claim fails: because `CPUManager.__init__`
(lines 33-41) never assigns `self._scaling_driver` (its
`_detect_scaling_driver` helper is never called anywhere), the check at
line 335 raises `AttributeError`, which escapes `set_epp`, whenever the
current governor is "performance" — instead of returning `false`.  The
third conjunct shows the claimed behaviour is exactly what the code does
once the attribute carries a detected driver, confirming the missing
`self._scaling_driver = self._detect_scaling_driver()` assignment (the
sibling `DeviceManager.__init__` has precisely that line) as the slip. -/
theorem claim_C3_set_epp_rejects_or_raises :
    (∀ (attrs : CpuManagerAttrs) (env : EppEnv) (s : EppState)
      (epp : String), epp ∉ get_available_epp_options env →
      set_epp attrs env s epp = .ok (false, s, [])) ∧
    (∀ (env : EppEnv) (s : EppState) (epp : String),
      epp ∈ get_available_epp_options env →
      env.currentGovernor = some sPerformance →
      set_epp cpuManagerInitAttrs env s epp = .error .attributeError) ∧
    (∀ (env : EppEnv) (s : EppState) (epp : String)
      (drv : Option ScalingDriver),
      epp ∈ get_available_epp_options env →
      env.currentGovernor = some sPerformance →
      (drv = some ScalingDriver.amdPstateEpp ∨
        drv = some ScalingDriver.intelPstate) →
      set_epp ⟨some drv⟩ env s epp = .ok (false, s, [])) := by
  refine ⟨?_, ?_, ?_⟩
  · intro attrs env s epp h
    simp [set_epp, h]
  · intro env s epp h1 h2
    simp [set_epp, h1, h2, cpuManagerInitAttrs]
  · intro env s epp drv h1 h2 h3
    simp [set_epp, h1, h2, h3]

/-- Witness for C3: on an amd-pstate-epp style option list with the
governor at "performance", `set_epp "power"` raises `AttributeError` on
the as-initialized manager, while an unavailable value like "balanced" is
still rejected with `false` and no writes. -/
theorem claim_C3_witness :
    (sPower ∈ get_available_epp_options eppEnvW ∧
      eppEnvW.currentGovernor = some sPerformance ∧
      sBalanced ∉ get_available_epp_options eppEnvW) ∧
    set_epp cpuManagerInitAttrs eppEnvW eppStateW sPower =
      .error .attributeError ∧
    set_epp cpuManagerInitAttrs eppEnvW eppStateW sBalanced =
      .ok (false, eppStateW, []) :=
  ⟨⟨by decide, rfl, by decide⟩,
    claim_C3_set_epp_rejects_or_raises.2.1 eppEnvW eppStateW sPower
      (by decide) rfl,
    claim_C3_set_epp_rejects_or_raises.1 cpuManagerInitAttrs eppEnvW
      eppStateW sBalanced (by decide)⟩

end PowerDeck
